import Mathlib

/-!
Verification of the guilded-rs client library against its specification.

The Rust sources are shallowly embedded: request builders become Lean
structures holding exactly the fields of the Rust structs, the pure parts of
each `send` become Lean functions of the (mocked) HTTP response, the
paginated streams become recursive functions over the list of pages the
mocked endpoint returns, and serde (de)serialization becomes executable
encoders/decoders over an inductive JSON type.  Machine integers (`u32`,
UUID bit patterns) are `Nat` with explicit bounds; fallible operations
return `Option` or `Except`.
-/

namespace Guilded

/-! ## Digit machinery

`chrono`/`uuid`/`u32` text forms are all positional digit strings.  We embed
them with most-significant-first digit lists. -/

/-- Lowercase digit character, as produced by Rust `Display` for integers and
by `uuid`s lowercase hyphenated `Display` (values 0-15). -/
def digitToChar (d : Nat) : Char :=
  if d < 10 then Char.ofNat (48 + d) else Char.ofNat (87 + d)

/-- Numeric value of a character as a digit in base `b` (accepts uppercase
and lowercase hex letters, mirroring Rust digit parsing). -/
def charToDigit (b : Nat) (c : Char) : Option Nat :=
  let v :=
    if 48 ≤ c.toNat ∧ c.toNat ≤ 57 then some (c.toNat - 48)
    else if 97 ≤ c.toNat ∧ c.toNat ≤ 102 then some (c.toNat - 87)
    else if 65 ≤ c.toNat ∧ c.toNat ≤ 70 then some (c.toNat - 55)
    else none
  match v with
  | some d => if d < b then some d else none
  | none => none

/-- Fixed-width digit expansion of `n` in base `b`, most significant first. -/
def toDigitsFixed (b k n : Nat) : List Nat :=
  match k with
  | 0 => []
  | k + 1 => toDigitsFixed b k (n / b) ++ [n % b]

/-- Value of a most-significant-first digit list in base `b`. -/
def ofDigits (b : Nat) (ds : List Nat) : Nat :=
  ds.foldl (fun a d => a * b + d) 0

/-- Variable-width decimal digits of `n` (no leading zeros), as produced by
Rust `Display` for unsigned integers. -/
def decDigits (n : Nat) : List Nat :=
  if h : n < 10 then [n]
  else decDigits (n / 10) ++ [n % 10]
  decreasing_by exact Nat.div_lt_self (by omega) (by omega)

theorem length_toDigitsFixed (b k n : Nat) : (toDigitsFixed b k n).length = k := by
  induction k generalizing n with
  | zero => rfl
  | succ k ih => simp [toDigitsFixed, ih]

theorem toDigitsFixed_lt (b k n : Nat) (hb : 0 < b) :
    ∀ d ∈ toDigitsFixed b k n, d < b := by
  induction k generalizing n with
  | zero => intro d hd; simp [toDigitsFixed] at hd
  | succ k ih =>
    intro d hd
    simp only [toDigitsFixed, List.mem_append, List.mem_singleton] at hd
    rcases hd with hd | hd
    · exact ih (n / b) d hd
    · subst hd; exact Nat.mod_lt _ hb

theorem decDigits_lt (n : Nat) : ∀ d ∈ decDigits n, d < 10 := by
  induction n using Nat.strong_induction_on with
  | _ n ih =>
    intro d hd
    rw [decDigits] at hd
    split at hd
    · simp at hd; omega
    · simp only [List.mem_append, List.mem_singleton] at hd
      rcases hd with hd | hd
      · exact ih (n / 10) (Nat.div_lt_self (by omega) (by omega)) d hd
      · subst hd; exact Nat.mod_lt _ (by omega)

theorem ofDigits_snoc (b : Nat) (ds : List Nat) (d : Nat) :
    ofDigits b (ds ++ [d]) = ofDigits b ds * b + d := by
  simp [ofDigits, List.foldl_append]

theorem ofDigits_toDigitsFixed (b k n : Nat) (hn : n < b ^ k) :
    ofDigits b (toDigitsFixed b k n) = n := by
  induction k generalizing n with
  | zero => simp only [pow_zero, Nat.lt_one_iff] at hn; simp [toDigitsFixed, ofDigits, hn]
  | succ k ih =>
    have hb : 0 < b := by
      rcases Nat.eq_zero_or_pos b with hb | hb
      · subst hb; simp at hn
      · exact hb
    rw [toDigitsFixed, ofDigits_snoc, ih (n / b) ?_]
    · rw [Nat.mul_comm]; exact Nat.div_add_mod n b
    · rw [Nat.div_lt_iff_lt_mul hb, ← pow_succ]; exact hn

theorem ofDigits_decDigits (n : Nat) : ofDigits 10 (decDigits n) = n := by
  induction n using Nat.strong_induction_on with
  | _ n ih =>
    rw [decDigits]
    split
    · simp [ofDigits]
    · rw [ofDigits_snoc, ih (n / 10) (Nat.div_lt_self (by omega) (by omega)),
        Nat.mul_comm]
      exact Nat.div_add_mod n 10

theorem ofDigits_append (b : Nat) (xs ys : List Nat) :
    ofDigits b (xs ++ ys) = ofDigits b xs * b ^ ys.length + ofDigits b ys := by
  induction ys using List.reverseRecOn with
  | nil => simp [ofDigits]
  | append_singleton ys d ih =>
    rw [← List.append_assoc, ofDigits_snoc, ofDigits_snoc, ih]
    simp [pow_succ]; ring

theorem charToDigit_digitToChar {b d : Nat} (hb : b ≤ 16) (hd : d < b) :
    charToDigit b (digitToChar d) = some d := by
  have h16 : d < 16 := lt_of_lt_of_le hd hb
  have : charToDigit b (digitToChar d) =
      if d < b then some d else none := by
    interval_cases d <;> simp [digitToChar, charToDigit, Char.ofNat, Char.toNat] <;> rfl
  rw [this, if_pos hd]

/-- Parse a list of characters as base-`b` digits (all characters must be
digits); returns the value. -/
def parseDigits (b : Nat) (cs : List Char) : Option Nat :=
  match cs with
  | [] => some 0
  | c :: cs =>
    match charToDigit b c, parseDigits b cs with
    | some d, some v => some (d * b ^ cs.length + v)
    | _, _ => none

theorem parseDigits_map_digitToChar {b : Nat} (hb : b ≤ 16) (ds : List Nat)
    (hds : ∀ d ∈ ds, d < b) :
    parseDigits b (ds.map digitToChar) = some (ofDigits b ds) := by
  induction ds with
  | nil => simp [parseDigits, ofDigits]
  | cons d ds ih =>
    have hd : d < b := hds d (by simp)
    have := ih (fun x hx => hds x (by simp [hx]))
    simp only [List.map_cons, parseDigits, charToDigit_digitToChar hb hd, this,
      List.length_map]
    congr 1
    have : ofDigits b (d :: ds) = ofDigits b ([d] ++ ds) := by simp
    rw [this, ofDigits_append]
    simp [ofDigits]

/-! ## Text forms of the primitive identifier types

`u32` values display as plain decimal (Rust `Display for u32`); `Uuid`
values display as the lowercase hyphenated form (`Display for Uuid`); their
`FromStr` impls parse those forms back. -/

/-- Decimal text of a `u32` value, as Rust `Display` prints it. -/
def u32Display (n : Nat) : String :=
  ⟨(decDigits n).map digitToChar⟩

/-- Value of a nonempty run of decimal digits, checked against `u32::MAX`
(the digit-accumulation loop of `u32::from_str`). -/
def u32Digits (cs : List Char) : Option Nat :=
  match cs with
  | [] => none
  | _ =>
    match parseDigits 10 cs with
    | some v => if v < 2 ^ 32 then some v else none
    | none => none

/-- `u32::from_str`: an optional leading `+`, then one or more decimal
digits; errors on empty input, non-digits, and values above `u32::MAX`. -/
def u32FromStr (s : String) : Option Nat :=
  match s.data with
  | [] => none
  | c :: cs => if c = '+' then u32Digits cs else u32Digits (c :: cs)

/-- Lowercase hyphenated text of a UUID (the 128-bit value `n`), as the
`uuid` crate's `Display` prints it: 8-4-4-4-12 hex digits. -/
def uuidDisplay (n : Nat) : String :=
  let ds := toDigitsFixed 16 32 n
  ⟨(ds.take 8).map digitToChar ++ '-' ::
    ((ds.drop 8).take 4).map digitToChar ++ '-' ::
    ((ds.drop 12).take 4).map digitToChar ++ '-' ::
    ((ds.drop 16).take 4).map digitToChar ++ '-' ::
    (ds.drop 20).map digitToChar⟩

/-- `Uuid::from_str`: accepts the hyphenated form (hyphens at positions
8, 13, 18 and 23) and the 32-digit simple form, upper or lower case. -/
def uuidFromStr (s : String) : Option Nat :=
  let cs := s.data
  if cs.length = 36 then
    if cs[8]? = some '-' ∧ cs[13]? = some '-' ∧
        cs[18]? = some '-' ∧ cs[23]? = some '-' then
      match parseDigits 16 (cs.take 8), parseDigits 16 ((cs.drop 9).take 4),
          parseDigits 16 ((cs.drop 14).take 4), parseDigits 16 ((cs.drop 19).take 4),
          parseDigits 16 (cs.drop 24) with
      | some a, some b, some c, some d, some e =>
        some (((((a * 16 ^ 4 + b) * 16 ^ 4 + c) * 16 ^ 4 + d) * 16 ^ 12 + e))
      | _, _, _, _, _ => none
    else none
  else if cs.length = 32 then
    parseDigits 16 cs
  else none

theorem decDigits_ne_nil (n : Nat) : decDigits n ≠ [] := by
  rw [decDigits]; split <;> simp

theorem getElem?_append_cons_self {α : Type} {l₁ l₂ : List α} {a : α} {i : Nat}
    (h : l₁.length = i) : (l₁ ++ a :: l₂)[i]? = some a := by
  rw [List.getElem?_append_right (le_of_eq h), h, Nat.sub_self]
  simp

theorem digitToChar_ne_plus {d : Nat} (hd : d < 10) : digitToChar d ≠ '+' := by
  interval_cases d <;> decide

theorem u32Digits_cons (c : Char) (cs : List Char) :
    u32Digits (c :: cs) =
      match parseDigits 10 (c :: cs) with
      | some v => if v < 2 ^ 32 then some v else none
      | none => none := rfl

/-- `u32` text round-trip: parsing the canonical decimal form recovers the
value. -/
theorem u32FromStr_u32Display {n : Nat} (hn : n < 2 ^ 32) :
    u32FromStr (u32Display n) = some n := by
  obtain ⟨d, rest, hrest⟩ : ∃ d rest, decDigits n = d :: rest := by
    cases h : decDigits n with
    | nil => exact absurd h (decDigits_ne_nil n)
    | cons d rest => exact ⟨d, rest, rfl⟩
  have hd : d < 10 := decDigits_lt n d (by rw [hrest]; simp)
  have hdata : (u32Display n).data = digitToChar d :: rest.map digitToChar := by
    simp [u32Display, hrest]
  have hparse : parseDigits 10 (digitToChar d :: rest.map digitToChar) = some n := by
    have h1 : digitToChar d :: rest.map digitToChar = (d :: rest).map digitToChar := by
      simp
    rw [h1, ← hrest,
      parseDigits_map_digitToChar (show (10 : Nat) ≤ 16 by omega) (decDigits n)
        (decDigits_lt n),
      ofDigits_decDigits]
  rw [u32FromStr.eq_def, hdata]
  simp only []
  rw [if_neg (digitToChar_ne_plus hd), u32Digits_cons, hparse]
  simp only []
  rw [if_pos hn]

/-- UUID text round-trip: parsing the canonical lowercase hyphenated form
recovers the 128-bit value. -/
theorem uuidFromStr_uuidDisplay {n : Nat} (hn : n < 2 ^ 128) :
    uuidFromStr (uuidDisplay n) = some n := by
  have hds : (toDigitsFixed 16 32 n).length = 32 := length_toDigitsFixed 16 32 n
  have hlt : ∀ d ∈ toDigitsFixed 16 32 n, d < 16 := toDigitsFixed_lt 16 32 n (by omega)
  set ds := toDigitsFixed 16 32 n with hdsdef
  set s1 := (ds.take 8).map digitToChar with hs1
  set s2 := ((ds.drop 8).take 4).map digitToChar with hs2
  set s3 := ((ds.drop 12).take 4).map digitToChar with hs3
  set s4 := ((ds.drop 16).take 4).map digitToChar with hs4
  set s5 := (ds.drop 20).map digitToChar with hs5
  have l1 : s1.length = 8 := by simp [hs1, hds]
  have l2 : s2.length = 4 := by simp [hs2, hds]
  have l3 : s3.length = 4 := by simp [hs3, hds]
  have l4 : s4.length = 4 := by simp [hs4, hds]
  have l5 : s5.length = 12 := by simp [hs5, hds]
  have hdata : (uuidDisplay n).data =
      s1 ++ '-' :: (s2 ++ '-' :: (s3 ++ '-' :: (s4 ++ '-' :: s5))) := by
    simp [uuidDisplay, hs1, hs2, hs3, hs4, hs5, List.append_assoc]
  have hlen : (uuidDisplay n).data.length = 36 := by
    rw [hdata]; simp [l1, l2, l3, l4, l5]
  have h8 : (uuidDisplay n).data[8]? = some '-' := by
    rw [hdata]
    exact getElem?_append_cons_self l1
  have h13 : (uuidDisplay n).data[13]? = some '-' := by
    rw [hdata, show s1 ++ '-' :: (s2 ++ '-' :: (s3 ++ '-' :: (s4 ++ '-' :: s5))) =
      (s1 ++ '-' :: s2) ++ '-' :: (s3 ++ '-' :: (s4 ++ '-' :: s5)) by
        simp [List.append_assoc]]
    exact getElem?_append_cons_self (by simp [l1, l2])
  have h18 : (uuidDisplay n).data[18]? = some '-' := by
    rw [hdata, show s1 ++ '-' :: (s2 ++ '-' :: (s3 ++ '-' :: (s4 ++ '-' :: s5))) =
      (s1 ++ '-' :: (s2 ++ '-' :: s3)) ++ '-' :: (s4 ++ '-' :: s5) by
        simp [List.append_assoc]]
    exact getElem?_append_cons_self (by simp [l1, l2, l3])
  have h23 : (uuidDisplay n).data[23]? = some '-' := by
    rw [hdata, show s1 ++ '-' :: (s2 ++ '-' :: (s3 ++ '-' :: (s4 ++ '-' :: s5))) =
      (s1 ++ '-' :: (s2 ++ '-' :: (s3 ++ '-' :: s4))) ++ '-' :: s5 by
        simp [List.append_assoc]]
    exact getElem?_append_cons_self (by simp [l1, l2, l3, l4])
  have htake8 : (uuidDisplay n).data.take 8 = s1 := by
    rw [hdata]; exact List.take_left' l1
  have hdrop9 : (uuidDisplay n).data.drop 9 = s2 ++ '-' :: (s3 ++ '-' :: (s4 ++ '-' :: s5)) := by
    rw [hdata]
    have : s1 ++ '-' :: (s2 ++ '-' :: (s3 ++ '-' :: (s4 ++ '-' :: s5))) =
        (s1 ++ ['-']) ++ (s2 ++ '-' :: (s3 ++ '-' :: (s4 ++ '-' :: s5))) := by
      simp [List.append_assoc]
    rw [this]
    exact List.drop_left' (by simp [l1])
  have hdrop14 : (uuidDisplay n).data.drop 14 = s3 ++ '-' :: (s4 ++ '-' :: s5) := by
    have : (uuidDisplay n).data.drop 14 = ((uuidDisplay n).data.drop 9).drop 5 := by
      rw [List.drop_drop]
    rw [this, hdrop9]
    have : s2 ++ '-' :: (s3 ++ '-' :: (s4 ++ '-' :: s5)) =
        (s2 ++ ['-']) ++ (s3 ++ '-' :: (s4 ++ '-' :: s5)) := by
      simp [List.append_assoc]
    rw [this]
    exact List.drop_left' (by simp [l2])
  have hdrop19 : (uuidDisplay n).data.drop 19 = s4 ++ '-' :: s5 := by
    have : (uuidDisplay n).data.drop 19 = ((uuidDisplay n).data.drop 14).drop 5 := by
      rw [List.drop_drop]
    rw [this, hdrop14]
    have : s3 ++ '-' :: (s4 ++ '-' :: s5) = (s3 ++ ['-']) ++ (s4 ++ '-' :: s5) := by
      simp [List.append_assoc]
    rw [this]
    exact List.drop_left' (by simp [l3])
  have hdrop24 : (uuidDisplay n).data.drop 24 = s5 := by
    have : (uuidDisplay n).data.drop 24 = ((uuidDisplay n).data.drop 19).drop 5 := by
      rw [List.drop_drop]
    rw [this, hdrop19]
    have : s4 ++ '-' :: s5 = (s4 ++ ['-']) ++ s5 := by
      simp [List.append_assoc]
    rw [this]
    exact List.drop_left' (by simp [l4])
  have hp1 : parseDigits 16 s1 = some (ofDigits 16 (ds.take 8)) :=
    parseDigits_map_digitToChar (le_refl 16)
      _ (fun x hx => hlt x (List.mem_of_mem_take hx))
  have hp2 : parseDigits 16 s2 = some (ofDigits 16 ((ds.drop 8).take 4)) :=
    parseDigits_map_digitToChar (le_refl 16)
      _ (fun x hx => hlt x (List.mem_of_mem_drop (List.mem_of_mem_take hx)))
  have hp3 : parseDigits 16 s3 = some (ofDigits 16 ((ds.drop 12).take 4)) :=
    parseDigits_map_digitToChar (le_refl 16)
      _ (fun x hx => hlt x (List.mem_of_mem_drop (List.mem_of_mem_take hx)))
  have hp4 : parseDigits 16 s4 = some (ofDigits 16 ((ds.drop 16).take 4)) :=
    parseDigits_map_digitToChar (le_refl 16)
      _ (fun x hx => hlt x (List.mem_of_mem_drop (List.mem_of_mem_take hx)))
  have hp5 : parseDigits 16 s5 = some (ofDigits 16 (ds.drop 20)) :=
    parseDigits_map_digitToChar (le_refl 16)
      _ (fun x hx => hlt x (List.mem_of_mem_drop hx))
  have hval : ((((ofDigits 16 (ds.take 8) * 16 ^ 4 + ofDigits 16 ((ds.drop 8).take 4)) * 16 ^ 4 +
      ofDigits 16 ((ds.drop 12).take 4)) * 16 ^ 4 + ofDigits 16 ((ds.drop 16).take 4)) * 16 ^ 12 +
      ofDigits 16 (ds.drop 20)) = n := by
    have hn16 : n < 16 ^ 32 := by
      have : (16 : Nat) ^ 32 = 2 ^ 128 := by norm_num
      omega
    have e0 : ofDigits 16 ds = n := ofDigits_toDigitsFixed 16 32 n hn16
    have d8 : ds.drop 8 = (ds.drop 8).take 4 ++ ds.drop 12 := by
      have h := List.take_append_drop 4 (ds.drop 8)
      rw [List.drop_drop] at h
      norm_num at h
      exact h.symm
    have d12 : ds.drop 12 = (ds.drop 12).take 4 ++ ds.drop 16 := by
      have h := List.take_append_drop 4 (ds.drop 12)
      rw [List.drop_drop] at h
      norm_num at h
      exact h.symm
    have d16 : ds.drop 16 = (ds.drop 16).take 4 ++ ds.drop 20 := by
      have h := List.take_append_drop 4 (ds.drop 16)
      rw [List.drop_drop] at h
      norm_num at h
      exact h.symm
    have ln8 : (ds.drop 8).length = 24 := by simp [hds]
    have ln12 : (ds.drop 12).length = 20 := by simp [hds]
    have ln16 : (ds.drop 16).length = 16 := by simp [hds]
    have ln20 : (ds.drop 20).length = 12 := by simp [hds]
    have e1 : ofDigits 16 ds =
        ofDigits 16 (ds.take 8) * 16 ^ 24 + ofDigits 16 (ds.drop 8) := by
      conv_lhs => rw [← List.take_append_drop 8 ds]
      rw [ofDigits_append, ln8]
    have e2 : ofDigits 16 (ds.drop 8) =
        ofDigits 16 ((ds.drop 8).take 4) * 16 ^ 20 + ofDigits 16 (ds.drop 12) := by
      conv_lhs => rw [d8]
      rw [ofDigits_append, ln12]
    have e3 : ofDigits 16 (ds.drop 12) =
        ofDigits 16 ((ds.drop 12).take 4) * 16 ^ 16 + ofDigits 16 (ds.drop 16) := by
      conv_lhs => rw [d12]
      rw [ofDigits_append, ln16]
    have e4 : ofDigits 16 (ds.drop 16) =
        ofDigits 16 ((ds.drop 16).take 4) * 16 ^ 12 + ofDigits 16 (ds.drop 20) := by
      conv_lhs => rw [d16]
      rw [ofDigits_append, ln20]
    rw [← e0, e1, e2, e3, e4]
    ring
  rw [uuidFromStr.eq_def]
  simp only [hlen, reduceIte]
  rw [if_pos (show _ ∧ _ ∧ _ ∧ _ from ⟨h8, h13, h18, h23⟩)]
  have htake9 : ((uuidDisplay n).data.drop 9).take 4 = s2 := by
    rw [hdrop9]; exact List.take_left' l2
  have htake14 : ((uuidDisplay n).data.drop 14).take 4 = s3 := by
    rw [hdrop14]; exact List.take_left' l3
  have htake19 : ((uuidDisplay n).data.drop 19).take 4 = s4 := by
    rw [hdrop19]; exact List.take_left' l4
  rw [htake8, htake9, htake14, htake19, hdrop24, hp1, hp2, hp3, hp4, hp5]
  exact congrArg some hval

/-! ## Calendar arithmetic and RFC3339 text

`chrono`s `DateTime<Utc>` is embedded as milliseconds since the Unix epoch
(`Int`).  `to_rfc3339_opts(SecondsFormat::Millis, true)` is embedded by the
standard civil-from-days algorithm chrono uses internally, printing
`YYYY-MM-DDTHH:MM:SS.mmmZ`. -/

/-- Days since 1970-01-01 to a proleptic Gregorian civil date
(year, month, day). -/
def civilFromDays (z : Int) : Int × Nat × Nat :=
  let z' := z + 719468
  let era := z'.fdiv 146097
  let doe := (z' - era * 146097).toNat
  let yoe := (doe - doe / 1460 + doe / 36524 - doe / 146096) / 365
  let doy := doe - (365 * yoe + yoe / 4 - yoe / 100)
  let mp := (5 * doy + 2) / 153
  let d := doy - (153 * mp + 2) / 5 + 1
  let m := if mp < 10 then mp + 3 else mp - 9
  ((yoe : Int) + era * 400 + (if m ≤ 2 then 1 else 0), m, d)

/-- Civil date to days since 1970-01-01 (inverse of `civilFromDays`). -/
def daysFromCivil (y : Int) (m d : Nat) : Int :=
  let y' := y - (if m ≤ 2 then 1 else 0)
  let era := y'.fdiv 400
  let yoe := (y' - era * 400).toNat
  let doy := (153 * (if 2 < m then m - 3 else m + 9) + 2) / 5 + d - 1
  let doe := yoe * 365 + yoe / 4 - yoe / 100 + doy
  era * 146097 + (doe : Int) - 719468

/-- Zero-padded fixed-width decimal text. -/
def natPad (k n : Nat) : String :=
  ⟨(toDigitsFixed 10 k n).map digitToChar⟩

/-- Year field of RFC3339 text: four digits for years 0-9999, otherwise a
signed expanded form (as chrono prints out-of-range years). -/
def yearText (y : Int) : String :=
  if 0 ≤ y ∧ y < 10000 then natPad 4 y.toNat
  else if y < 0 then "-" ++ natPad 4 (-y).toNat
  else "+" ++ u32Display y.toNat

/-- `DateTime::<Utc>::to_rfc3339_opts(SecondsFormat::Millis, true)` for a
timestamp of `t` milliseconds since the Unix epoch. -/
def rfc3339Millis (t : Int) : String :=
  let ms := (t.emod 1000).toNat
  let secs := t.fdiv 1000
  let days := secs.fdiv 86400
  let sod := (secs.emod 86400).toNat
  let ymd := civilFromDays days
  (yearText ymd.1 ++ "-" ++ natPad 2 ymd.2.1 ++ "-" ++ natPad 2 ymd.2.2 ++ "T" ++
    natPad 2 (sod / 3600) ++ ":" ++ natPad 2 (sod % 3600 / 60) ++ ":" ++
    natPad 2 (sod % 60)) ++ ("." ++ (natPad 3 ms ++ "Z"))

/-- Parse the canonical `YYYY-MM-DDTHH:MM:SS.mmmZ` form back to milliseconds
since the epoch (the `str::parse::<DateTime<Utc>>` path the message stream
uses on its stored cursor text). -/
def parseRfc3339Millis (s : String) : Option Int :=
  match s.data with
  | [y1, y2, y3, y4, '-', o1, o2, '-', d1, d2, 'T',
      h1, h2, ':', i1, i2, ':', s1, s2, '.', l1, l2, l3, 'Z'] =>
    match parseDigits 10 [y1, y2, y3, y4], parseDigits 10 [o1, o2],
        parseDigits 10 [d1, d2], parseDigits 10 [h1, h2],
        parseDigits 10 [i1, i2], parseDigits 10 [s1, s2],
        parseDigits 10 [l1, l2, l3] with
    | some y, some mo, some d, some h, some mi, some sec, some ms =>
      if 1 ≤ mo ∧ mo ≤ 12 ∧ 1 ≤ d ∧ d ≤ 31 ∧ h < 24 ∧ mi < 60 ∧ sec < 60 then
        some (daysFromCivil (y : Int) mo d * 86400000 +
          ((h * 3600 + mi * 60 + sec) * 1000 + ms : Nat))
      else none
    | _, _, _, _, _, _, _ => none
  | _ => none

/-! ## Typed identifiers

One newtype per resource kind, each wrapping exactly one primitive:
`Uuid` (embedded as `Nat`, the 128-bit value), `u32` (embedded as `Nat`)
or `String`.  Each kind carries its own `Display`, `FromStr` and
`PartialEq` impls in the source; they are embedded one function per impl. -/

/-- `message.rs`: `pub struct MessageId(Uuid)`. -/
structure MessageId where
  val : Nat
  deriving Repr, DecidableEq

def MessageId.new (id : Nat) : MessageId := ⟨id⟩
def MessageId.display (m : MessageId) : String := uuidDisplay m.val
def MessageId.from_str (s : String) : Option MessageId := (uuidFromStr s).map MessageId.new
def MessageId.eq_uuid (m : MessageId) (u : Nat) : Bool := m.val == u
def MessageId.eq_str (m : MessageId) (s : String) : Bool :=
  match uuidFromStr s with
  | some o => m.val == o
  | none => false

/-- `channel.rs`: `pub struct ChannelId(Uuid)`. -/
structure ChannelId where
  val : Nat
  deriving Repr, DecidableEq

def ChannelId.new (id : Nat) : ChannelId := ⟨id⟩
def ChannelId.display (c : ChannelId) : String := uuidDisplay c.val
def ChannelId.from_str (s : String) : Option ChannelId := (uuidFromStr s).map ChannelId.new
def ChannelId.eq_uuid (c : ChannelId) (u : Nat) : Bool := c.val == u
def ChannelId.eq_str (c : ChannelId) (s : String) : Bool :=
  match uuidFromStr s with
  | some o => c.val == o
  | none => false

/-- `list.rs`: `pub struct ListId(Uuid)`. -/
structure ListId where
  val : Nat
  deriving Repr, DecidableEq

def ListId.new (id : Nat) : ListId := ⟨id⟩
def ListId.display (l : ListId) : String := uuidDisplay l.val
def ListId.from_str (s : String) : Option ListId := (uuidFromStr s).map ListId.new
def ListId.eq_uuid (l : ListId) (u : Nat) : Bool := l.val == u
def ListId.eq_str (l : ListId) (s : String) : Bool :=
  match uuidFromStr s with
  | some o => l.val == o
  | none => false

/-- `docs.rs`: `pub struct DocId(u32)`. -/
structure DocId where
  val : Nat
  deriving Repr, DecidableEq

def DocId.new (doc : Nat) : DocId := ⟨doc⟩
def DocId.display (d : DocId) : String := u32Display d.val
def DocId.from_str (s : String) : Option DocId := (u32FromStr s).map DocId.new
def DocId.eq_u32 (d : DocId) (o : Nat) : Bool := d.val == o
def DocId.eq_str (d : DocId) (s : String) : Bool :=
  match u32FromStr s with
  | some o => d.val == o
  | none => false

/-- `roles.rs`: `pub struct RoleId(u32)`. -/
structure RoleId where
  val : Nat
  deriving Repr, DecidableEq

def RoleId.new (role : Nat) : RoleId := ⟨role⟩
def RoleId.display (r : RoleId) : String := u32Display r.val
def RoleId.from_str (s : String) : Option RoleId := (u32FromStr s).map RoleId.new
def RoleId.eq_u32 (r : RoleId) (o : Nat) : Bool := r.val == o
def RoleId.eq_str (r : RoleId) (s : String) : Bool :=
  match u32FromStr s with
  | some o => r.val == o
  | none => false

/-- `channel.rs`: `pub struct CategoryId(u32)`. -/
structure CategoryId where
  val : Nat
  deriving Repr, DecidableEq

def CategoryId.new (category : Nat) : CategoryId := ⟨category⟩
def CategoryId.display (c : CategoryId) : String := u32Display c.val
def CategoryId.from_str (s : String) : Option CategoryId := (u32FromStr s).map CategoryId.new
def CategoryId.eq_u32 (c : CategoryId) (o : Nat) : Bool := c.val == o
def CategoryId.eq_str (c : CategoryId) (s : String) : Bool :=
  match u32FromStr s with
  | some o => c.val == o
  | none => false

/-- `forums.rs`: `pub struct ForumId(u32)`. -/
structure ForumId where
  val : Nat
  deriving Repr, DecidableEq

def ForumId.new (id : Nat) : ForumId := ⟨id⟩
def ForumId.display (f : ForumId) : String := u32Display f.val
def ForumId.from_str (s : String) : Option ForumId := (u32FromStr s).map ForumId.new
def ForumId.eq_u32 (f : ForumId) (o : Nat) : Bool := f.val == o
def ForumId.eq_str (f : ForumId) (s : String) : Bool :=
  match u32FromStr s with
  | some o => f.val == o
  | none => false

/-- `reactions.rs`: `pub struct EmoteId(u32)`. -/
structure EmoteId where
  val : Nat
  deriving Repr, DecidableEq

def EmoteId.new (reaction : Nat) : EmoteId := ⟨reaction⟩
def EmoteId.display (e : EmoteId) : String := u32Display e.val
def EmoteId.from_str (s : String) : Option EmoteId := (u32FromStr s).map EmoteId.new
def EmoteId.eq_u32 (e : EmoteId) (o : Nat) : Bool := e.val == o
def EmoteId.eq_str (e : EmoteId) (s : String) : Bool :=
  match u32FromStr s with
  | some o => e.val == o
  | none => false

/-- `member.rs`: `pub struct UserId(String)`. -/
structure UserId where
  val : String
  deriving Repr, DecidableEq

def UserId.new (id : String) : UserId := ⟨id⟩
def UserId.display (u : UserId) : String := u.val
def UserId.from_str (s : String) : Option UserId := some (UserId.new s)
def UserId.eq_str (u : UserId) (s : String) : Bool := u.val == s

/-- `member.rs`: `pub struct ServerId(String)`. -/
structure ServerId where
  val : String
  deriving Repr, DecidableEq

def ServerId.new (server : String) : ServerId := ⟨server⟩
def ServerId.display (s : ServerId) : String := s.val
def ServerId.from_str (s : String) : Option ServerId := some (ServerId.new s)
def ServerId.eq_str (sv : ServerId) (s : String) : Bool := sv.val == s

/-- `groups.rs`: `pub struct GroupId(String)`. -/
structure GroupId where
  val : String
  deriving Repr, DecidableEq

def GroupId.new (group : String) : GroupId := ⟨group⟩
def GroupId.display (g : GroupId) : String := g.val
def GroupId.from_str (s : String) : Option GroupId := some (GroupId.new s)
def GroupId.eq_str (g : GroupId) (s : String) : Bool := g.val == s

/-- `message.rs`: `pub struct WebhookId(String)`. -/
structure WebhookId where
  val : String
  deriving Repr, DecidableEq

def WebhookId.new (id : String) : WebhookId := ⟨id⟩
def WebhookId.display (w : WebhookId) : String := w.val
def WebhookId.from_str (s : String) : Option WebhookId := some (WebhookId.new s)
def WebhookId.eq_str (w : WebhookId) (s : String) : Bool := w.val == s

/-! ## Shared HTTP client handle

`reqwest::Client` is opaque to the library; the facade clones one shared
handle into every builder.  It is embedded as an abstract token compared by
identity. -/

structure Client where
  id : Nat
  deriving Repr, DecidableEq

/-- Rust `Display for bool` (`format!("{private}")`). -/
def boolDisplay (b : Bool) : String := if b then "true" else "false"

/-! ## Resource records (message.rs, docs.rs)

`DateTime<Utc>` values are embedded as milliseconds since the Unix epoch. -/

/-- `message.rs`: `enum MessageType { Default, System }`. -/
inductive MessageType
  | default
  | system
  deriving Repr, DecidableEq

/-- `message.rs`: `struct ChatEmbedFooter`. -/
structure ChatEmbedFooter where
  icon_url : Option String
  text : String
  deriving Repr, DecidableEq

/-- `message.rs`: `struct ChatEmbedThumbnail`. -/
structure ChatEmbedThumbnail where
  url : String
  deriving Repr, DecidableEq

/-- `message.rs`: `struct ChatEmbedImage`. -/
structure ChatEmbedImage where
  url : String
  deriving Repr, DecidableEq

/-- `message.rs`: `struct ChatEmbedAuthor`. -/
structure ChatEmbedAuthor where
  name : Option String
  url : Option String
  icon_url : Option String
  deriving Repr, DecidableEq

/-- `message.rs`: `struct ChatEmbedField`. -/
structure ChatEmbedField where
  name : String
  value : String
  inline : Bool
  deriving Repr, DecidableEq

/-- `message.rs`: `struct ChatEmbed`. -/
structure ChatEmbed where
  title : Option String
  description : Option String
  url : Option String
  color : Option Nat
  footer : Option ChatEmbedFooter
  timestamp : Option Int
  thumbnail : Option ChatEmbedThumbnail
  image : Option ChatEmbedImage
  author : Option ChatEmbedAuthor
  fields : List ChatEmbedField
  deriving Repr, DecidableEq

/-- `message.rs`: `struct ChatMessage` (the Rust field `private` is spelled
`isPrivate` here because `private` is a Lean keyword). -/
structure ChatMessage where
  id : MessageId
  message_type : MessageType
  server : Option String
  channel : Option ChannelId
  content : String
  embeds : List ChatEmbed
  replies : List MessageId
  isPrivate : Bool
  created_at : Int
  created_by : Option UserId
  webhook : Option WebhookId
  updated : Option Int
  deriving Repr, DecidableEq

/-- `docs.rs`: `struct Doc`. -/
structure Doc where
  id : DocId
  server : ServerId
  channel : ChannelId
  title : String
  content : String
  created : Int
  created_by : UserId
  updated : Option Int
  updated_by : Option UserId
  deriving Repr, DecidableEq

/-! ## Paging request builders (message.rs, docs.rs)

The `before`/`after` fields hold the already-formatted cursor text, exactly
as the Rust builders store `Option<String>` set by the fluent setters. -/

/-- `message.rs`: `struct GetChannelMessagesRequest` (field `private`
spelled `isPrivate`). -/
structure GetChannelMessagesRequest where
  client : Client
  channel : ChannelId
  before : Option String
  after : Option String
  limit : Option Nat
  isPrivate : Option Bool
  deriving Repr, DecidableEq

/-- `GetChannelMessagesRequest::new`. -/
def GetChannelMessagesRequest.new (client : Client) (channel : ChannelId) :
    GetChannelMessagesRequest :=
  ⟨client, channel, none, none, none, none⟩

/-- The fluent `before` setter: stores
`to_rfc3339_opts(SecondsFormat::Millis, true)` of the given instant (the
`with_timezone(&Utc)` step is the identity here since timestamps are already
UTC instants). -/
def GetChannelMessagesRequest.set_before (r : GetChannelMessagesRequest) (t : Int) :
    GetChannelMessagesRequest :=
  { r with before := some (rfc3339Millis t) }

/-- The fluent `after` setter. -/
def GetChannelMessagesRequest.set_after (r : GetChannelMessagesRequest) (t : Int) :
    GetChannelMessagesRequest :=
  { r with after := some (rfc3339Millis t) }

/-- The fluent `private` setter. -/
def GetChannelMessagesRequest.set_private (r : GetChannelMessagesRequest) (p : Bool) :
    GetChannelMessagesRequest :=
  { r with isPrivate := some p }

/-- The query string `GetChannelMessagesRequest::send_part` builds by the
chain of `url.set_query(Some(&format!(...)))` calls: each present optional
parameter appends `name=value&` to the previous query (`None` when no
parameter is set). -/
def GetChannelMessagesRequest.queryString (r : GetChannelMessagesRequest) :
    Option String :=
  let q : Option String := none
  let q : Option String :=
    match r.before with
    | some before => some ("before=" ++ before ++ "&")
    | none => q
  let q : Option String :=
    match r.after with
    | some after => some ((q.getD "") ++ "after=" ++ after ++ "&")
    | none => q
  let q : Option String :=
    match r.limit with
    | some limit => some ((q.getD "") ++ "limit=" ++ u32Display limit ++ "&")
    | none => q
  match r.isPrivate with
  | some p => some ((q.getD "") ++ "private=" ++ boolDisplay p ++ "&")
  | none => q

/-- `docs.rs`: `struct GetDocsRequest`. -/
structure GetDocsRequest where
  client : Client
  channel : ChannelId
  before : Option String
  limit : Option Nat
  deriving Repr, DecidableEq

/-- `GetDocsRequest::new`. -/
def GetDocsRequest.new (client : Client) (channel : ChannelId) : GetDocsRequest :=
  ⟨client, channel, none, none⟩

/-- The fluent `before` setter of `GetDocsRequest`. -/
def GetDocsRequest.set_before (r : GetDocsRequest) (t : Int) : GetDocsRequest :=
  { r with before := some (rfc3339Millis t) }

/-- The query string `GetDocsRequest::send_part` builds. -/
def GetDocsRequest.queryString (r : GetDocsRequest) : Option String :=
  let q : Option String := none
  let q : Option String :=
    match r.before with
    | some before => some ("before=" ++ before ++ "&")
    | none => q
  match r.limit with
  | some limit => some ((q.getD "") ++ "limit=" ++ u32Display limit ++ "&")
  | none => q

/-! ## Paginated streams (message.rs `ChannelMessageStream`, docs.rs
`DocsStream`)

The stream is driven against a mocked endpoint: the list of pages the
successive `send_part` calls decode, in order.  A run records every item
yielded, every request issued (one per `send_part`), and how the stream
ended:

* `terminated` — a fetched page was empty, the loop broke normally;
* `exhausted` — a request was issued but the mock had no page left for it
  (the scenario under scrutiny ends before this matters);
* `aborted` — the `after.parse::<DateTime<Utc>>().unwrap()` call on the
  carried-over cursor text failed, which panics in the Rust code. -/

inductive StreamStop
  | terminated
  | exhausted
  | aborted
  deriving Repr, DecidableEq

structure MsgRun where
  items : List ChatMessage
  requests : List GetChannelMessagesRequest
  stop : StreamStop
  deriving Repr, DecidableEq

/-- One full run of `ChannelMessageStream::iter` against the mocked pages:
fetch a page, yield its items in order, and if at least one item was
yielded, rebuild a fresh request carrying the last items `created_at` as
the new `before` cursor plus the original `after`/`private` parameters, and
continue; an empty page terminates the stream. -/
def channelMessageStreamIter (req : GetChannelMessagesRequest) :
    List (List ChatMessage) → MsgRun
  | [] => ⟨[], [req], .exhausted⟩
  | page :: rest =>
    match page.getLast? with
    | none => ⟨[], [req], .terminated⟩
    | some last =>
      let base := (GetChannelMessagesRequest.new req.client req.channel).set_before
        last.created_at
      match req.after with
      | none =>
        let next :=
          match req.isPrivate with
          | some p => base.set_private p
          | none => base
        let r := channelMessageStreamIter next rest
        ⟨page ++ r.items, req :: r.requests, r.stop⟩
      | some s =>
        match parseRfc3339Millis s with
        | none => ⟨page, [req], .aborted⟩
        | some t =>
          let next :=
            match req.isPrivate with
            | some p => (base.set_after t).set_private p
            | none => base.set_after t
          let r := channelMessageStreamIter next rest
          ⟨page ++ r.items, req :: r.requests, r.stop⟩

structure DocsRun where
  items : List Doc
  requests : List GetDocsRequest
  stop : StreamStop
  deriving Repr, DecidableEq

/-- One full run of `DocsStream::iter` against the mocked pages: like the
message stream but the follow-up request carries only the new `before`
cursor. -/
def docsStreamIter (req : GetDocsRequest) : List (List Doc) → DocsRun
  | [] => ⟨[], [req], .exhausted⟩
  | page :: rest =>
    match page.getLast? with
    | none => ⟨[], [req], .terminated⟩
    | some last =>
      let next := (GetDocsRequest.new req.client req.channel).set_before last.created
      let r := docsStreamIter next rest
      ⟨page ++ r.items, req :: r.requests, r.stop⟩

/-- A message request whose `after` cursor (if any) is canonical text that
parses back to the instant it was formatted from — true of every request
built through the public API, whose only way to set `after` is the setter. -/
def AfterOk (req : GetChannelMessagesRequest) : Prop :=
  req.after = none ∨
    ∃ t : Int, req.after = some (rfc3339Millis t) ∧
      parseRfc3339Millis (rfc3339Millis t) = some t

/-! ## JSON values and serde-style decoding

`serde_json::Value` is embedded as an inductive; decoding a struct reads
its declared fields from an object, honouring the source attributes:
`deny_unknown_fields` rejects any undeclared key, `Option` fields default
to `None` when missing or `null`, `#[serde(default)]`/
`#[serde(default = "default_usertype")]` fill missing fields. -/

inductive Json
  | null
  | bool (b : Bool)
  | num (n : Int)
  | str (s : String)
  | arr (elems : List Json)
  | obj (fields : List (String × Json))
  deriving Repr

/-- First binding of key `k` in a decoded JSON object. -/
def jsonLookup (fields : List (String × Json)) (k : String) : Option Json :=
  (fields.find? (fun kv => kv.1 = k)).map (fun kv => kv.2)

/-- A required field: missing or undecodable fails. -/
def reqField {α : Type} (fields : List (String × Json)) (k : String)
    (dec : Json → Option α) : Option α :=
  (jsonLookup fields k).bind dec

/-- An `Option<T>` field: missing or `null` is `None`, anything else must
decode. -/
def optField {α : Type} (fields : List (String × Json)) (k : String)
    (dec : Json → Option α) : Option (Option α) :=
  match jsonLookup fields k with
  | none => some none
  | some .null => some none
  | some v => (dec v).map some

def decodeString : Json → Option String
  | .str s => some s
  | _ => none

/-- `chrono::DateTime<Utc>` deserializes from RFC3339 text. -/
def decodeDateTime : Json → Option Int
  | .str s => parseRfc3339Millis s
  | _ => none

def decodeUserId : Json → Option UserId
  | .str s => some (UserId.new s)
  | _ => none

/-- `member.rs`: `enum UserType { Bot, User }` with
`rename_all = "snake_case"`. -/
inductive UserType
  | bot
  | user
  deriving Repr, DecidableEq

def decodeUserType : Json → Option UserType
  | .str "bot" => some UserType.bot
  | .str "user" => some UserType.user
  | _ => none

/-- `member.rs`: `struct UserSummary` (`deny_unknown_fields`; the `type`
field defaults to `User` when absent). -/
structure UserSummary where
  id : UserId
  user_type : UserType
  name : String
  avatar : Option String
  deriving Repr, DecidableEq

def decodeUserSummary : Json → Option UserSummary
  | .obj fields =>
    if fields.all (fun kv => kv.1 == "id" || kv.1 == "type" || kv.1 == "name" ||
        kv.1 == "avatar") then
      match reqField fields "id" decodeUserId,
          (match jsonLookup fields "type" with
            | none => some UserType.user
            | some v => decodeUserType v),
          reqField fields "name" decodeString,
          optField fields "avatar" decodeString with
      | some id, some t, some name, some avatar => some ⟨id, t, name, avatar⟩
      | _, _, _, _ => none
    else none
  | _ => none

/-- `bans.rs`: `struct ServerMemberBan` (`deny_unknown_fields`,
`rename_all = "camelCase"`, `created` renamed to `createdAt`). -/
structure ServerMemberBan where
  user : UserSummary
  reason : Option String
  created_by : UserId
  created : Int
  deriving Repr, DecidableEq

def decodeServerMemberBan : Json → Option ServerMemberBan
  | .obj fields =>
    if fields.all (fun kv => kv.1 == "user" || kv.1 == "reason" ||
        kv.1 == "createdBy" || kv.1 == "createdAt") then
      match reqField fields "user" decodeUserSummary,
          optField fields "reason" decodeString,
          reqField fields "createdBy" decodeUserId,
          reqField fields "createdAt" decodeDateTime with
      | some user, some reason, some created_by, some created =>
        some ⟨user, reason, created_by, created⟩
      | _, _, _, _ => none
    else none
  | _ => none

/-- `bans.rs`: `struct ServerBanResponse` — the POST envelope, which HAS
`deny_unknown_fields`; its one field `ban` is renamed `serverMemberBan`. -/
structure ServerBanResponse where
  ban : ServerMemberBan
  deriving Repr, DecidableEq

def decodeServerBanResponse : Json → Option ServerBanResponse
  | .obj fields =>
    if fields.all (fun kv => kv.1 == "serverMemberBan") then
      match reqField fields "serverMemberBan" decodeServerMemberBan with
      | some ban => some ⟨ban⟩
      | none => none
    else none
  | _ => none

/-- `bans.rs`: `struct GetServerBanResponse` — the GET envelope, which has
NO `deny_unknown_fields` attribute in the source, so serde ignores unknown
keys here. -/
structure GetServerBanResponse where
  ban : ServerMemberBan
  deriving Repr, DecidableEq

def decodeGetServerBanResponse : Json → Option GetServerBanResponse
  | .obj fields =>
    match reqField fields "serverMemberBan" decodeServerMemberBan with
    | some ban => some ⟨ban⟩
    | none => none
  | _ => none

/-! ## Outgoing JSON bodies (bans.rs) -/

/-- `bans.rs`: `struct ServerBanBody` serialization — the `reason` field has
`#[serde(skip_serializing_if = "Option::is_none")]`, so an absent reason
produces no `reason` key at all (not `null`). -/
def ServerBanBody.serialize (reason : Option String) : Json :=
  .obj (match reason with
    | some r => [("reason", .str r)]
    | none => [])

/-! ## HTTP responses and the pure part of `send`

A mocked transport: the response (status and decoded JSON body) the single
`execute` call of a `send` yields.  `error_for_status` is reqwests: it
fails exactly on client/server error statuses (400-599). -/

structure Response where
  status : Nat
  body : Json
  deriving Repr

inductive Error
  | status (code : Nat)
  | decode
  deriving Repr, DecidableEq

def errorForStatus (resp : Response) : Except Error Response :=
  if 400 ≤ resp.status ∧ resp.status ≤ 599 then .error (.status resp.status)
  else .ok resp

/-! ## Request builders (one structure per Rust builder struct)

Every builder holds the cloned client handle and its call parameters,
exactly the fields of the Rust struct (reference fields embedded by
value). -/

/-- `channel.rs`: `enum ChannelType` (`rename_all = "snake_case"`). -/
inductive ChannelType
  | announcements
  | chat
  | calendar
  | forums
  | media
  | docs
  | voice
  | list
  | scheduling
  | stream
  deriving Repr, DecidableEq

/-- `channel.rs`: `struct CreateChannelRequest` (note the source declares
`public` as `Option<&str>`). -/
structure CreateChannelRequest where
  name : String
  topic : Option String
  isPublic : Option String
  channel_type : ChannelType
  server : String
  group : Option GroupId
  category : Option CategoryId
  client : Client
  deriving Repr, DecidableEq

def CreateChannelRequest.new (client : Client) (server name : String)
    (channel_type : ChannelType) : CreateChannelRequest :=
  ⟨name, none, none, channel_type, server, none, none, client⟩

structure GetChannelRequest where
  client : Client
  channel : ChannelId
  deriving Repr, DecidableEq

def GetChannelRequest.new (client : Client) (channel : ChannelId) : GetChannelRequest :=
  ⟨client, channel⟩

structure DeleteChannelRequest where
  client : Client
  channel : ChannelId
  deriving Repr, DecidableEq

def DeleteChannelRequest.new (client : Client) (channel : ChannelId) :
    DeleteChannelRequest :=
  ⟨client, channel⟩

/-- `message.rs`: `struct CreateMessageRequest` (`private`/`silent` spelled
`isPrivate`/`isSilent`). -/
structure CreateMessageRequest where
  client : Client
  channel_id : ChannelId
  isPrivate : Option Bool
  isSilent : Option Bool
  replies : List MessageId
  content : String
  embeds : List ChatEmbed
  deriving Repr, DecidableEq

def CreateMessageRequest.new (client : Client) (channel : ChannelId)
    (content : String) : CreateMessageRequest :=
  ⟨client, channel, none, none, [], content, []⟩

structure GetMessageRequest where
  client : Client
  channel : ChannelId
  message : MessageId
  deriving Repr, DecidableEq

def GetMessageRequest.new (client : Client) (channel : ChannelId)
    (message : MessageId) : GetMessageRequest :=
  ⟨client, channel, message⟩

structure UpdateMessageRequestBody where
  content : String
  embeds : List ChatEmbed
  deriving Repr, DecidableEq

structure UpdateMessageRequest where
  client : Client
  channel : ChannelId
  message : MessageId
  content : UpdateMessageRequestBody
  deriving Repr, DecidableEq

def UpdateMessageRequest.new (client : Client) (channel : ChannelId)
    (message : MessageId) (content : String) : UpdateMessageRequest :=
  ⟨client, channel, message, ⟨content, []⟩⟩

structure DeleteMessageRequest where
  client : Client
  channel : ChannelId
  message : MessageId
  deriving Repr, DecidableEq

def DeleteMessageRequest.new (client : Client) (channel : ChannelId)
    (message : MessageId) : DeleteMessageRequest :=
  ⟨client, channel, message⟩

structure UpdateNicknameRequest where
  client : Client
  server : ServerId
  user : UserId
  nickname : String
  deriving Repr, DecidableEq

def UpdateNicknameRequest.new (client : Client) (server : ServerId) (user : UserId)
    (nickname : String) : UpdateNicknameRequest :=
  ⟨client, server, user, nickname⟩

structure DeleteNicknameRequest where
  client : Client
  server : ServerId
  user : UserId
  deriving Repr, DecidableEq

def DeleteNicknameRequest.new (client : Client) (server : ServerId) (user : UserId) :
    DeleteNicknameRequest :=
  ⟨client, server, user⟩

structure GetMemberRequest where
  client : Client
  server : ServerId
  user : UserId
  deriving Repr, DecidableEq

def GetMemberRequest.new (client : Client) (server : ServerId) (user : UserId) :
    GetMemberRequest :=
  ⟨client, server, user⟩

structure KickMemberRequest where
  client : Client
  server : ServerId
  user : UserId
  deriving Repr, DecidableEq

def KickMemberRequest.new (client : Client) (server : ServerId) (user : UserId) :
    KickMemberRequest :=
  ⟨client, server, user⟩

structure GetMembersRequest where
  client : Client
  server : ServerId
  deriving Repr, DecidableEq

def GetMembersRequest.new (client : Client) (server : ServerId) : GetMembersRequest :=
  ⟨client, server⟩

/-- `bans.rs`: `struct ServerBanRequest`. -/
structure ServerBanRequest where
  client : Client
  server : ServerId
  user : UserId
  reason : Option String
  deriving Repr, DecidableEq

def ServerBanRequest.new (client : Client) (server : ServerId) (user : UserId) :
    ServerBanRequest :=
  ⟨client, server, user, none⟩

/-- The fluent `reason` setter of the ban-creation builder. -/
def ServerBanRequest.set_reason (r : ServerBanRequest) (reason : String) :
    ServerBanRequest :=
  { r with reason := some reason }

/-- The JSON body `ServerBanRequest::send` attaches:
`ServerBanBody::new(self.reason)` serialized. -/
def ServerBanRequest.body (r : ServerBanRequest) : Json :=
  ServerBanBody.serialize r.reason

structure GetServerBanRequest where
  client : Client
  server : ServerId
  user : UserId
  deriving Repr, DecidableEq

def GetServerBanRequest.new (client : Client) (server : ServerId) (user : UserId) :
    GetServerBanRequest :=
  ⟨client, server, user⟩

structure DeleteServerBanRequest where
  client : Client
  server : ServerId
  user : UserId
  deriving Repr, DecidableEq

def DeleteServerBanRequest.new (client : Client) (server : ServerId) (user : UserId) :
    DeleteServerBanRequest :=
  ⟨client, server, user⟩

structure GetServerBansRequest where
  client : Client
  server : ServerId
  deriving Repr, DecidableEq

def GetServerBansRequest.new (client : Client) (server : ServerId) :
    GetServerBansRequest :=
  ⟨client, server⟩

structure CreateThreadRequest where
  client : Client
  channel : ChannelId
  title : String
  content : String
  deriving Repr, DecidableEq

def CreateThreadRequest.new (client : Client) (channel : ChannelId)
    (title content : String) : CreateThreadRequest :=
  ⟨client, channel, title, content⟩

structure CreateListItemRequest where
  client : Client
  channel : ChannelId
  message : String
  note : Option String
  deriving Repr, DecidableEq

def CreateListItemRequest.new (client : Client) (channel : ChannelId)
    (message : String) : CreateListItemRequest :=
  ⟨client, channel, message, none⟩

structure GetListItemsRequest where
  client : Client
  channel : ChannelId
  deriving Repr, DecidableEq

def GetListItemsRequest.new (client : Client) (channel : ChannelId) :
    GetListItemsRequest :=
  ⟨client, channel⟩

structure GetListItemRequest where
  client : Client
  channel : ChannelId
  item : ListId
  deriving Repr, DecidableEq

def GetListItemRequest.new (client : Client) (channel : ChannelId) (item : ListId) :
    GetListItemRequest :=
  ⟨client, channel, item⟩

structure UpdateListItemRequest where
  client : Client
  channel : ChannelId
  item : ListId
  message : String
  note : Option String
  deriving Repr, DecidableEq

def UpdateListItemRequest.new (client : Client) (channel : ChannelId) (item : ListId)
    (message : String) : UpdateListItemRequest :=
  ⟨client, channel, item, message, none⟩

structure DeleteListItemRequest where
  client : Client
  channel : ChannelId
  item : ListId
  deriving Repr, DecidableEq

def DeleteListItemRequest.new (client : Client) (channel : ChannelId) (item : ListId) :
    DeleteListItemRequest :=
  ⟨client, channel, item⟩

structure CompleteListItemRequest where
  client : Client
  channel : ChannelId
  item : ListId
  deriving Repr, DecidableEq

def CompleteListItemRequest.new (client : Client) (channel : ChannelId)
    (item : ListId) : CompleteListItemRequest :=
  ⟨client, channel, item⟩

structure UncompleteListItemRequest where
  client : Client
  channel : ChannelId
  item : ListId
  deriving Repr, DecidableEq

def UncompleteListItemRequest.new (client : Client) (channel : ChannelId)
    (item : ListId) : UncompleteListItemRequest :=
  ⟨client, channel, item⟩

structure CreateDocRequest where
  client : Client
  channel : ChannelId
  title : String
  content : String
  deriving Repr, DecidableEq

def CreateDocRequest.new (client : Client) (channel : ChannelId)
    (title content : String) : CreateDocRequest :=
  ⟨client, channel, title, content⟩

structure GetDocRequest where
  client : Client
  channel : ChannelId
  doc : DocId
  deriving Repr, DecidableEq

def GetDocRequest.new (client : Client) (channel : ChannelId) (doc : DocId) :
    GetDocRequest :=
  ⟨client, channel, doc⟩

structure UpdateDocRequest where
  client : Client
  channel : ChannelId
  doc : DocId
  title : String
  content : String
  deriving Repr, DecidableEq

def UpdateDocRequest.new (client : Client) (channel : ChannelId) (doc : DocId)
    (title content : String) : UpdateDocRequest :=
  ⟨client, channel, doc, title, content⟩

structure DeleteDocRequest where
  client : Client
  channel : ChannelId
  doc : DocId
  deriving Repr, DecidableEq

def DeleteDocRequest.new (client : Client) (channel : ChannelId) (doc : DocId) :
    DeleteDocRequest :=
  ⟨client, channel, doc⟩

/-- `reactions.rs`: `enum ContentId`. -/
inductive ContentId
  | channel (id : ChannelId)
  | doc (id : DocId)
  | forum (id : ForumId)
  | list (id : ListId)
  | message (id : MessageId)
  deriving Repr, DecidableEq

structure AddReactionRequest where
  client : Client
  channel : ChannelId
  content : ContentId
  emote : EmoteId
  deriving Repr, DecidableEq

def AddReactionRequest.new (client : Client) (channel : ChannelId)
    (content : ContentId) (emote : EmoteId) : AddReactionRequest :=
  ⟨client, channel, content, emote⟩

structure MemberXpRequest where
  client : Client
  server : ServerId
  user : UserId
  amount : Int
  deriving Repr, DecidableEq

def MemberXpRequest.new (client : Client) (server : ServerId) (user : UserId)
    (amount : Int) : MemberXpRequest :=
  ⟨client, server, user, amount⟩

structure RoleXpRequest where
  client : Client
  server : ServerId
  role : RoleId
  amount : Int
  deriving Repr, DecidableEq

def RoleXpRequest.new (client : Client) (server : ServerId) (role : RoleId)
    (amount : Int) : RoleXpRequest :=
  ⟨client, server, role, amount⟩

structure AddGroupMemberRequest where
  client : Client
  group : GroupId
  user : UserId
  deriving Repr, DecidableEq

def AddGroupMemberRequest.new (client : Client) (group : GroupId) (user : UserId) :
    AddGroupMemberRequest :=
  ⟨client, group, user⟩

structure DeleteGroupMemberRequest where
  client : Client
  group : GroupId
  user : UserId
  deriving Repr, DecidableEq

def DeleteGroupMemberRequest.new (client : Client) (group : GroupId) (user : UserId) :
    DeleteGroupMemberRequest :=
  ⟨client, group, user⟩

structure AssignRoleRequest where
  client : Client
  server : ServerId
  user : UserId
  role : RoleId
  deriving Repr, DecidableEq

def AssignRoleRequest.new (client : Client) (server : ServerId) (user : UserId)
    (role : RoleId) : AssignRoleRequest :=
  ⟨client, server, user, role⟩

structure RemoveRoleRequest where
  client : Client
  server : ServerId
  user : UserId
  role : RoleId
  deriving Repr, DecidableEq

def RemoveRoleRequest.new (client : Client) (server : ServerId) (user : UserId)
    (role : RoleId) : RemoveRoleRequest :=
  ⟨client, server, user, role⟩

structure GetMemberRolesRequest where
  client : Client
  server : ServerId
  user : UserId
  deriving Repr, DecidableEq

def GetMemberRolesRequest.new (client : Client) (server : ServerId) (user : UserId) :
    GetMemberRolesRequest :=
  ⟨client, server, user⟩

/-! ## The pure part of the fallible sends (C3)

Each function takes the response the single `execute` call yields and
returns what `send` returns.  `DeleteDocRequest::send` and
`RemoveRoleRequest::send` never call `error_for_status` in the source
(`let _response = self.client.execute(request).await?;`), so they succeed
regardless of the status; the other senders shown here do call it. -/

/-- `docs.rs` `DeleteDocRequest::send`: no `error_for_status` call. -/
def DeleteDocRequest.send (_r : DeleteDocRequest) (_response : Response) :
    Except Error Unit :=
  .ok ()

/-- `roles.rs` `RemoveRoleRequest::send`: no `error_for_status` call. -/
def RemoveRoleRequest.send (_r : RemoveRoleRequest) (_response : Response) :
    Except Error Unit :=
  .ok ()

/-- `bans.rs` `ServerBanRequest::send`: checks the status, then decodes the
`ServerBanResponse` envelope and unwraps the ban. -/
def ServerBanRequest.send (_r : ServerBanRequest) (response : Response) :
    Except Error ServerMemberBan := do
  let resp ← errorForStatus response
  match decodeServerBanResponse resp.body with
  | some env => .ok env.ban
  | none => .error .decode

/-- `bans.rs` `DeleteServerBanRequest::send`: checks the status, ignores the
body. -/
def DeleteServerBanRequest.send (_r : DeleteServerBanRequest) (response : Response) :
    Except Error Unit := do
  let _ ← errorForStatus response
  .ok ()

/-- `roles.rs` `AssignRoleRequest::send`: checks the status, ignores the
body. -/
def AssignRoleRequest.send (_r : AssignRoleRequest) (response : Response) :
    Except Error Unit := do
  let _ ← errorForStatus response
  .ok ()

/-- `bans.rs` `GetServerBanRequest::send`: checks the status, then decodes
the (non-strict) `GetServerBanResponse` envelope. -/
def GetServerBanRequest.send (_r : GetServerBanRequest) (response : Response) :
    Except Error ServerMemberBan := do
  let resp ← errorForStatus response
  match decodeGetServerBanResponse resp.body with
  | some env => .ok env.ban
  | none => .error .decode

/-! ## Client facade (lib.rs `GuildedClient`)

Each method clones the shared handle and hands it to the corresponding
builder constructor, performing no I/O.  The one exception in the source is
`get_channels`, whose body is `unimplemented!()` — a panic; a panicking
method is embedded as returning `none`, every normally-returning method as
`some` of the builder it constructs. -/

structure GuildedClient where
  client : Client
  deriving Repr, DecidableEq

def GuildedClient.create_channel (g : GuildedClient) (server name : String)
    (channel_type : ChannelType) : Option CreateChannelRequest :=
  some (CreateChannelRequest.new g.client server name channel_type)

def GuildedClient.get_channel (g : GuildedClient) (id : ChannelId) :
    Option GetChannelRequest :=
  some (GetChannelRequest.new g.client id)

def GuildedClient.delete_channel (g : GuildedClient) (id : ChannelId) :
    Option DeleteChannelRequest :=
  some (DeleteChannelRequest.new g.client id)

/-- `lib.rs` `get_channels` is `unimplemented!()` — it aborts instead of
returning a builder. -/
def GuildedClient.get_channels (_g : GuildedClient) : Option GetChannelRequest :=
  none

def GuildedClient.send_message (g : GuildedClient) (channel : ChannelId)
    (content : String) : Option CreateMessageRequest :=
  some (CreateMessageRequest.new g.client channel content)

def GuildedClient.get_messages (g : GuildedClient) (channel : ChannelId) :
    Option GetChannelMessagesRequest :=
  some (GetChannelMessagesRequest.new g.client channel)

def GuildedClient.get_message (g : GuildedClient) (channel : ChannelId)
    (message : MessageId) : Option GetMessageRequest :=
  some (GetMessageRequest.new g.client channel message)

def GuildedClient.update_message (g : GuildedClient) (channel : ChannelId)
    (message : MessageId) (content : String) : Option UpdateMessageRequest :=
  some (UpdateMessageRequest.new g.client channel message content)

def GuildedClient.delete_message (g : GuildedClient) (channel : ChannelId)
    (message : MessageId) : Option DeleteMessageRequest :=
  some (DeleteMessageRequest.new g.client channel message)

def GuildedClient.update_nickname (g : GuildedClient) (server : ServerId)
    (user : UserId) (nickname : String) : Option UpdateNicknameRequest :=
  some (UpdateNicknameRequest.new g.client server user nickname)

def GuildedClient.delete_nickname (g : GuildedClient) (server : ServerId)
    (user : UserId) : Option DeleteNicknameRequest :=
  some (DeleteNicknameRequest.new g.client server user)

def GuildedClient.get_member (g : GuildedClient) (server : ServerId)
    (user : UserId) : Option GetMemberRequest :=
  some (GetMemberRequest.new g.client server user)

def GuildedClient.kick_member (g : GuildedClient) (server : ServerId)
    (user : UserId) : Option KickMemberRequest :=
  some (KickMemberRequest.new g.client server user)

def GuildedClient.get_members (g : GuildedClient) (server : ServerId) :
    Option GetMembersRequest :=
  some (GetMembersRequest.new g.client server)

def GuildedClient.ban_user (g : GuildedClient) (server : ServerId)
    (user : UserId) : Option ServerBanRequest :=
  some (ServerBanRequest.new g.client server user)

def GuildedClient.get_ban (g : GuildedClient) (server : ServerId)
    (user : UserId) : Option GetServerBanRequest :=
  some (GetServerBanRequest.new g.client server user)

def GuildedClient.delete_ban (g : GuildedClient) (server : ServerId)
    (user : UserId) : Option DeleteServerBanRequest :=
  some (DeleteServerBanRequest.new g.client server user)

def GuildedClient.get_bans (g : GuildedClient) (server : ServerId) :
    Option GetServerBansRequest :=
  some (GetServerBansRequest.new g.client server)

def GuildedClient.create_thread (g : GuildedClient) (channel : ChannelId)
    (title content : String) : Option CreateThreadRequest :=
  some (CreateThreadRequest.new g.client channel title content)

def GuildedClient.create_list_item (g : GuildedClient) (channel : ChannelId)
    (message : String) : Option CreateListItemRequest :=
  some (CreateListItemRequest.new g.client channel message)

def GuildedClient.get_list_items (g : GuildedClient) (channel : ChannelId) :
    Option GetListItemsRequest :=
  some (GetListItemsRequest.new g.client channel)

def GuildedClient.get_list_item (g : GuildedClient) (channel : ChannelId)
    (item : ListId) : Option GetListItemRequest :=
  some (GetListItemRequest.new g.client channel item)

def GuildedClient.update_list_item (g : GuildedClient) (channel : ChannelId)
    (item : ListId) (message : String) : Option UpdateListItemRequest :=
  some (UpdateListItemRequest.new g.client channel item message)

def GuildedClient.delete_list_item (g : GuildedClient) (channel : ChannelId)
    (item : ListId) : Option DeleteListItemRequest :=
  some (DeleteListItemRequest.new g.client channel item)

def GuildedClient.complete_list_item (g : GuildedClient) (channel : ChannelId)
    (item : ListId) : Option CompleteListItemRequest :=
  some (CompleteListItemRequest.new g.client channel item)

def GuildedClient.uncomplete_list_item (g : GuildedClient) (channel : ChannelId)
    (item : ListId) : Option UncompleteListItemRequest :=
  some (UncompleteListItemRequest.new g.client channel item)

def GuildedClient.create_doc (g : GuildedClient) (channel : ChannelId)
    (title content : String) : Option CreateDocRequest :=
  some (CreateDocRequest.new g.client channel title content)

def GuildedClient.get_docs (g : GuildedClient) (channel : ChannelId) :
    Option GetDocsRequest :=
  some (GetDocsRequest.new g.client channel)

def GuildedClient.get_doc (g : GuildedClient) (channel : ChannelId)
    (doc : DocId) : Option GetDocRequest :=
  some (GetDocRequest.new g.client channel doc)

def GuildedClient.update_doc (g : GuildedClient) (channel : ChannelId)
    (doc : DocId) (title content : String) : Option UpdateDocRequest :=
  some (UpdateDocRequest.new g.client channel doc title content)

def GuildedClient.delete_doc (g : GuildedClient) (channel : ChannelId)
    (doc : DocId) : Option DeleteDocRequest :=
  some (DeleteDocRequest.new g.client channel doc)

def GuildedClient.add_reaction (g : GuildedClient) (channel : ChannelId)
    (content : ContentId) (emote : EmoteId) : Option AddReactionRequest :=
  some (AddReactionRequest.new g.client channel content emote)

def GuildedClient.award_member (g : GuildedClient) (server : ServerId)
    (user : UserId) (amount : Int) : Option MemberXpRequest :=
  some (MemberXpRequest.new g.client server user amount)

def GuildedClient.award_role (g : GuildedClient) (server : ServerId)
    (role : RoleId) (amount : Int) : Option RoleXpRequest :=
  some (RoleXpRequest.new g.client server role amount)

def GuildedClient.add_group_member (g : GuildedClient) (group : GroupId)
    (user : UserId) : Option AddGroupMemberRequest :=
  some (AddGroupMemberRequest.new g.client group user)

def GuildedClient.delete_group_member (g : GuildedClient) (group : GroupId)
    (user : UserId) : Option DeleteGroupMemberRequest :=
  some (DeleteGroupMemberRequest.new g.client group user)

def GuildedClient.get_member_roles (g : GuildedClient) (server : ServerId)
    (user : UserId) : Option GetMemberRolesRequest :=
  some (GetMemberRolesRequest.new g.client server user)

/-! ## Sample values and spec-side phrasing helpers -/

/-- A concrete chat message for concrete stream runs. -/
def sampleMessage (k : Nat) (t : Int) : ChatMessage :=
  ⟨MessageId.new k, MessageType.default, none, none, "m", [], [], false, t,
    none, none, none⟩

/-- A concrete doc for concrete stream runs. -/
def sampleDoc (k : Nat) (t : Int) : Doc :=
  ⟨DocId.new k, ServerId.new "srv", ChannelId.new 9, "t", "c", t,
    UserId.new "author", none, none⟩

/-- One `name=value&` query segment for a present optional parameter, the
empty string for an absent one (spec-side phrasing of the query layout). -/
def optSegment (pre : String) : Option String → String
  | some v => pre ++ v ++ "&"
  | none => ""

/-! # Theorems -/

/-! ## Stream run structure lemmas -/

/-- Every run's request log starts with the request it was seeded with. -/
theorem channelMessageStreamIter_head (req : GetChannelMessagesRequest)
    (pages : List (List ChatMessage)) :
    ∃ tail, (channelMessageStreamIter req pages).requests = req :: tail := by
  cases pages with
  | nil => exact ⟨[], rfl⟩
  | cons page rest =>
    simp only [channelMessageStreamIter]
    cases hl : page.getLast? with
    | none => simp only [hl]; exact ⟨[], rfl⟩
    | some last =>
      simp only [hl]
      cases hA : req.after with
      | none =>
        simp only [hA]
        cases hP : req.isPrivate <;> simp only [hP] <;> exact ⟨_, rfl⟩
      | some s =>
        simp only [hA]
        cases hp : parseRfc3339Millis s with
        | none => simp only [hp]; exact ⟨[], rfl⟩
        | some t =>
          simp only [hp]
          cases hP : req.isPrivate <;> simp only [hP] <;> exact ⟨_, rfl⟩

theorem docsStreamIter_head (req : GetDocsRequest) (pages : List (List Doc)) :
    ∃ tail, (docsStreamIter req pages).requests = req :: tail := by
  cases pages with
  | nil => exact ⟨[], rfl⟩
  | cons page rest =>
    simp only [docsStreamIter]
    cases hl : page.getLast? with
    | none => simp only [hl]; exact ⟨[], rfl⟩
    | some last => simp only [hl]; exact ⟨_, rfl⟩

/-- Core run lemma for the message stream: pages before the first empty page
are yielded whole and in order, one request per fetched page, and the run
stops at the empty page. -/
theorem channelMessageStreamIter_spec (front rest : List (List ChatMessage))
    (req : GetChannelMessagesRequest) (hfront : ∀ p ∈ front, p ≠ [])
    (hok : AfterOk req) :
    (channelMessageStreamIter req (front ++ [] :: rest)).items = front.flatten ∧
    (channelMessageStreamIter req (front ++ [] :: rest)).requests.length =
      front.length + 1 ∧
    (channelMessageStreamIter req (front ++ [] :: rest)).stop =
      StreamStop.terminated := by
  induction front generalizing req with
  | nil => simp [channelMessageStreamIter]
  | cons page front ih =>
    have hpage : page ≠ [] := hfront page (List.mem_cons_self page front)
    obtain ⟨last, hlast⟩ : ∃ l, page.getLast? = some l := by
      cases h : page.getLast? with
      | none => exact absurd (List.getLast?_eq_none_iff.mp h) hpage
      | some l => exact ⟨l, rfl⟩
    have hfront' : ∀ p ∈ front, p ≠ [] := fun p hp => hfront p (List.mem_cons_of_mem _ hp)
    rw [List.cons_append]
    rcases hok with hA | ⟨t, hA, hparse⟩
    · cases hP : req.isPrivate with
      | none =>
        have ih' := ih ((GetChannelMessagesRequest.new req.client
          req.channel).set_before last.created_at) hfront' (Or.inl rfl)
        simp only [channelMessageStreamIter, hlast, hA, hP]
        exact ⟨by simp [ih'.1], by simp [ih'.2.1], ih'.2.2⟩
      | some p =>
        have ih' := ih (((GetChannelMessagesRequest.new req.client
          req.channel).set_before last.created_at).set_private p) hfront' (Or.inl rfl)
        simp only [channelMessageStreamIter, hlast, hA, hP]
        exact ⟨by simp [ih'.1], by simp [ih'.2.1], ih'.2.2⟩
    · cases hP : req.isPrivate with
      | none =>
        have ih' := ih (((GetChannelMessagesRequest.new req.client
          req.channel).set_before last.created_at).set_after t) hfront'
          (Or.inr ⟨t, rfl, hparse⟩)
        simp only [channelMessageStreamIter, hlast, hA, hparse, hP]
        exact ⟨by simp [ih'.1], by simp [ih'.2.1], ih'.2.2⟩
      | some p =>
        have ih' := ih ((((GetChannelMessagesRequest.new req.client
          req.channel).set_before last.created_at).set_after t).set_private p) hfront'
          (Or.inr ⟨t, rfl, hparse⟩)
        simp only [channelMessageStreamIter, hlast, hA, hparse, hP]
        exact ⟨by simp [ih'.1], by simp [ih'.2.1], ih'.2.2⟩

/-- Core run lemma for the docs stream. -/
theorem docsStreamIter_spec (front rest : List (List Doc)) (req : GetDocsRequest)
    (hfront : ∀ p ∈ front, p ≠ []) :
    (docsStreamIter req (front ++ [] :: rest)).items = front.flatten ∧
    (docsStreamIter req (front ++ [] :: rest)).requests.length = front.length + 1 ∧
    (docsStreamIter req (front ++ [] :: rest)).stop = StreamStop.terminated := by
  induction front generalizing req with
  | nil => simp [docsStreamIter]
  | cons page front ih =>
    have hpage : page ≠ [] := hfront page (List.mem_cons_self page front)
    obtain ⟨last, hlast⟩ : ∃ l, page.getLast? = some l := by
      cases h : page.getLast? with
      | none => exact absurd (List.getLast?_eq_none_iff.mp h) hpage
      | some l => exact ⟨l, rfl⟩
    have hfront' : ∀ p ∈ front, p ≠ [] := fun p hp => hfront p (List.mem_cons_of_mem _ hp)
    have ih' := ih ((GetDocsRequest.new req.client req.channel).set_before
      last.created) hfront'
    rw [List.cons_append]
    simp only [docsStreamIter, hlast]
    exact ⟨by simp [ih'.1], by simp [ih'.2.1], ih'.2.2⟩

/-- **C1**: against a mocked endpoint whose successive pages are
`front ++ [] :: rest` with every page of `front` nonempty, both paginated
streams (channel messages and docs) yield exactly the items of the `front`
pages, page after page in page order, and terminate at the first empty page
having issued exactly one request per fetched page — none for the pages
behind the empty one. -/
theorem C1_streams_yield_pages_in_order_and_stop_at_first_empty_page
    (mreq : GetChannelMessagesRequest) (mfront mrest : List (List ChatMessage))
    (dreq : GetDocsRequest) (dfront drest : List (List Doc))
    (hm : ∀ p ∈ mfront, p ≠ []) (hok : AfterOk mreq)
    (hd : ∀ p ∈ dfront, p ≠ []) :
    ((channelMessageStreamIter mreq (mfront ++ [] :: mrest)).items =
        mfront.flatten ∧
      (channelMessageStreamIter mreq (mfront ++ [] :: mrest)).requests.length =
        mfront.length + 1 ∧
      (channelMessageStreamIter mreq (mfront ++ [] :: mrest)).stop =
        StreamStop.terminated) ∧
    ((docsStreamIter dreq (dfront ++ [] :: drest)).items = dfront.flatten ∧
      (docsStreamIter dreq (dfront ++ [] :: drest)).requests.length =
        dfront.length + 1 ∧
      (docsStreamIter dreq (dfront ++ [] :: drest)).stop =
        StreamStop.terminated) :=
  ⟨channelMessageStreamIter_spec mfront mrest mreq hm hok,
    docsStreamIter_spec dfront drest dreq hd⟩

/-- Witness for C1: the spec's [2, 2, 0] scenario, for both streams. -/
theorem C1_witness :
    ((channelMessageStreamIter
        (GetChannelMessagesRequest.new ⟨0⟩ (ChannelId.new 7))
        ([[sampleMessage 1 1000, sampleMessage 2 2000],
          [sampleMessage 3 3000, sampleMessage 4 4000]] ++ [] :: [])).items =
      [[sampleMessage 1 1000, sampleMessage 2 2000],
        [sampleMessage 3 3000, sampleMessage 4 4000]].flatten ∧
      (channelMessageStreamIter
        (GetChannelMessagesRequest.new ⟨0⟩ (ChannelId.new 7))
        ([[sampleMessage 1 1000, sampleMessage 2 2000],
          [sampleMessage 3 3000, sampleMessage 4 4000]] ++ [] :: [])).requests.length =
      [[sampleMessage 1 1000, sampleMessage 2 2000],
        [sampleMessage 3 3000, sampleMessage 4 4000]].length + 1 ∧
      (channelMessageStreamIter
        (GetChannelMessagesRequest.new ⟨0⟩ (ChannelId.new 7))
        ([[sampleMessage 1 1000, sampleMessage 2 2000],
          [sampleMessage 3 3000, sampleMessage 4 4000]] ++ [] :: [])).stop =
      StreamStop.terminated) ∧
    ((docsStreamIter (GetDocsRequest.new ⟨0⟩ (ChannelId.new 9))
        ([[sampleDoc 1 1000, sampleDoc 2 2000],
          [sampleDoc 3 3000, sampleDoc 4 4000]] ++ [] :: [])).items =
      [[sampleDoc 1 1000, sampleDoc 2 2000],
        [sampleDoc 3 3000, sampleDoc 4 4000]].flatten ∧
      (docsStreamIter (GetDocsRequest.new ⟨0⟩ (ChannelId.new 9))
        ([[sampleDoc 1 1000, sampleDoc 2 2000],
          [sampleDoc 3 3000, sampleDoc 4 4000]] ++ [] :: [])).requests.length =
      [[sampleDoc 1 1000, sampleDoc 2 2000],
        [sampleDoc 3 3000, sampleDoc 4 4000]].length + 1 ∧
      (docsStreamIter (GetDocsRequest.new ⟨0⟩ (ChannelId.new 9))
        ([[sampleDoc 1 1000, sampleDoc 2 2000],
          [sampleDoc 3 3000, sampleDoc 4 4000]] ++ [] :: [])).stop =
      StreamStop.terminated) :=
  C1_streams_yield_pages_in_order_and_stop_at_first_empty_page
    (GetChannelMessagesRequest.new ⟨0⟩ (ChannelId.new 7))
    [[sampleMessage 1 1000, sampleMessage 2 2000],
      [sampleMessage 3 3000, sampleMessage 4 4000]] []
    (GetDocsRequest.new ⟨0⟩ (ChannelId.new 9))
    [[sampleDoc 1 1000, sampleDoc 2 2000],
      [sampleDoc 3 3000, sampleDoc 4 4000]] []
    (by decide) (Or.inl rfl) (by decide)

/-- The formatted cursor always carries exactly three millisecond digits and
a trailing `Z`. -/
theorem rfc3339Millis_shape (t : Int) :
    ∃ pre ms, ms < 1000 ∧
      rfc3339Millis t = pre ++ ("." ++ (natPad 3 ms ++ "Z")) ∧
      (natPad 3 ms).data.length = 3 := by
  refine ⟨_, (t.emod 1000).toNat, ?_, rfl, ?_⟩
  · have h1 : 0 ≤ t.emod 1000 := Int.emod_nonneg t (by norm_num)
    have h2 : t.emod 1000 < 1000 := Int.emod_lt_of_pos t (by norm_num)
    omega
  · simp [natPad, length_toDigitsFixed]

/-- **C2**: along any run of the message stream, the request issued after
fetching the `j`-th page carries a `before` query parameter equal to the
`created_at` timestamp of the last item of that page, formatted by
`to_rfc3339_opts(SecondsFormat::Millis, true)` — UTC RFC3339 text ending in
exactly three millisecond digits and `Z`. -/
theorem C2_next_request_cursor_is_last_items_timestamp
    (req : GetChannelMessagesRequest) (pages : List (List ChatMessage))
    (j : Nat) (page : List ChatMessage) (r' : GetChannelMessagesRequest)
    (hok : AfterOk req) (hpage : pages[j]? = some page)
    (hreq : (channelMessageStreamIter req pages).requests[j + 1]? = some r') :
    ∃ last, page.getLast? = some last ∧
      r'.before = some (rfc3339Millis last.created_at) ∧
      ∃ pre ms, ms < 1000 ∧
        rfc3339Millis last.created_at = pre ++ ("." ++ (natPad 3 ms ++ "Z")) ∧
        (natPad 3 ms).data.length = 3 := by
  induction pages generalizing req j with
  | nil => simp at hpage
  | cons page0 rest ih =>
    cases hl : page0.getLast? with
    | none =>
      rw [channelMessageStreamIter] at hreq
      simp only [hl] at hreq
      simp at hreq
    | some last0 =>
      have hnext : ∀ next : GetChannelMessagesRequest,
          next.before = some (rfc3339Millis last0.created_at) →
          AfterOk next →
          (channelMessageStreamIter req (page0 :: rest)).requests =
            req :: (channelMessageStreamIter next rest).requests →
          ∃ last, page.getLast? = some last ∧
            r'.before = some (rfc3339Millis last.created_at) ∧
            ∃ pre ms, ms < 1000 ∧
              rfc3339Millis last.created_at = pre ++ ("." ++ (natPad 3 ms ++ "Z")) ∧
              (natPad 3 ms).data.length = 3 := by
        intro next hbefore hoknext hrun
        rw [hrun] at hreq
        rw [List.getElem?_cons_succ] at hreq
        cases j with
        | zero =>
          have hpg : page0 = page := by
            simpa using hpage
          subst hpg
          obtain ⟨tail, htail⟩ := channelMessageStreamIter_head next rest
          rw [htail] at hreq
          simp only [List.getElem?_cons_zero, Option.some.injEq] at hreq
          subst hreq
          exact ⟨last0, hl, hbefore, rfc3339Millis_shape last0.created_at⟩
        | succ k =>
          have hpage' : rest[k]? = some page := by
            simpa using hpage
          exact ih next k hoknext hpage' hreq
      rcases hok with hA | ⟨t, hA, hparse⟩
      · cases hP : req.isPrivate with
        | none =>
          refine hnext ((GetChannelMessagesRequest.new req.client
            req.channel).set_before last0.created_at) rfl (Or.inl rfl) ?_
          rw [channelMessageStreamIter]
          simp only [hl, hA, hP]
        | some p =>
          refine hnext (((GetChannelMessagesRequest.new req.client
            req.channel).set_before last0.created_at).set_private p) rfl
            (Or.inl rfl) ?_
          rw [channelMessageStreamIter]
          simp only [hl, hA, hP]
      · cases hP : req.isPrivate with
        | none =>
          refine hnext (((GetChannelMessagesRequest.new req.client
            req.channel).set_before last0.created_at).set_after t) rfl
            (Or.inr ⟨t, rfl, hparse⟩) ?_
          rw [channelMessageStreamIter]
          simp only [hl, hA, hparse, hP]
        | some p =>
          refine hnext ((((GetChannelMessagesRequest.new req.client
            req.channel).set_before last0.created_at).set_after t).set_private p) rfl
            (Or.inr ⟨t, rfl, hparse⟩) ?_
          rw [channelMessageStreamIter]
          simp only [hl, hA, hparse, hP]

/-- Witness for C2: a concrete two-page run; the second request's cursor is
the formatted timestamp of the first page's last message. -/
theorem C2_witness :
    ∃ r', (channelMessageStreamIter
        (GetChannelMessagesRequest.new ⟨0⟩ (ChannelId.new 7))
        [[sampleMessage 1 1000, sampleMessage 2 2000], []]).requests[0 + 1]? =
        some r' ∧
      ∃ last, [sampleMessage 1 1000, sampleMessage 2 2000].getLast? = some last ∧
        r'.before = some (rfc3339Millis last.created_at) ∧
        ∃ pre ms, ms < 1000 ∧
          rfc3339Millis last.created_at = pre ++ ("." ++ (natPad 3 ms ++ "Z")) ∧
          (natPad 3 ms).data.length = 3 := by
  have h1 : ((channelMessageStreamIter
      (GetChannelMessagesRequest.new ⟨0⟩ (ChannelId.new 7))
      [[sampleMessage 1 1000, sampleMessage 2 2000], []]).requests[0 + 1]?).isSome := by
    decide
  obtain ⟨r', hr'⟩ := Option.isSome_iff_exists.mp h1
  exact ⟨r', hr', C2_next_request_cursor_is_last_items_timestamp
    (GetChannelMessagesRequest.new ⟨0⟩ (ChannelId.new 7))
    [[sampleMessage 1 1000, sampleMessage 2 2000], []] 0
    [sampleMessage 1 1000, sampleMessage 2 2000] r' (Or.inl rfl) rfl hr'⟩

/-- **C9**: the follow-up request either stream builds after a nonempty page
is a freshly constructed request onto which only the new `before` cursor and
(for messages) the original `after` and `private` parameters are replayed:
the original `limit` is silently dropped (`none` again), and the remaining
fields — client handle and channel — equal the original request's. The docs
follow-up carries only the new `before` cursor. -/
theorem C9_followup_request_replays_after_private_and_drops_limit
    (req : GetChannelMessagesRequest) (page : List ChatMessage)
    (rest : List (List ChatMessage)) (last : ChatMessage)
    (dreq : GetDocsRequest) (dpage : List Doc) (drest : List (List Doc))
    (dlast : Doc) (hok : AfterOk req) (hlast : page.getLast? = some last)
    (hdlast : dpage.getLast? = some dlast) :
    (∃ next, (channelMessageStreamIter req (page :: rest)).requests[1]? =
        some next ∧
      next.client = req.client ∧ next.channel = req.channel ∧
      next.before = some (rfc3339Millis last.created_at) ∧
      next.after = req.after ∧ next.isPrivate = req.isPrivate ∧
      next.limit = none) ∧
    (∃ dnext, (docsStreamIter dreq (dpage :: drest)).requests[1]? = some dnext ∧
      dnext.client = dreq.client ∧ dnext.channel = dreq.channel ∧
      dnext.before = some (rfc3339Millis dlast.created) ∧
      dnext.limit = none) := by
  constructor
  · have hnext : ∀ next : GetChannelMessagesRequest,
        (channelMessageStreamIter req (page :: rest)).requests =
          req :: (channelMessageStreamIter next rest).requests →
        next.client = req.client → next.channel = req.channel →
        next.before = some (rfc3339Millis last.created_at) →
        next.after = req.after → next.isPrivate = req.isPrivate →
        next.limit = none →
        ∃ next, (channelMessageStreamIter req (page :: rest)).requests[1]? =
            some next ∧
          next.client = req.client ∧ next.channel = req.channel ∧
          next.before = some (rfc3339Millis last.created_at) ∧
          next.after = req.after ∧ next.isPrivate = req.isPrivate ∧
          next.limit = none := by
      intro next hrun h1 h2 h3 h4 h5 h6
      obtain ⟨tail, htail⟩ := channelMessageStreamIter_head next rest
      refine ⟨next, ?_, h1, h2, h3, h4, h5, h6⟩
      rw [hrun, List.getElem?_cons_succ, htail, List.getElem?_cons_zero]
    rcases hok with hA | ⟨t, hA, hparse⟩
    · refine hnext (match req.isPrivate with
        | some p => ((GetChannelMessagesRequest.new req.client
            req.channel).set_before last.created_at).set_private p
        | none => (GetChannelMessagesRequest.new req.client
            req.channel).set_before last.created_at) ?_ ?_ ?_ ?_ ?_ ?_ ?_
      · rw [channelMessageStreamIter]
        simp only [hlast, hA]
      · cases req.isPrivate <;> rfl
      · cases req.isPrivate <;> rfl
      · cases req.isPrivate <;> rfl
      · rw [hA]; cases req.isPrivate <;> rfl
      · cases req.isPrivate <;> rfl
      · cases req.isPrivate <;> rfl
    · refine hnext (match req.isPrivate with
        | some p => (((GetChannelMessagesRequest.new req.client
            req.channel).set_before last.created_at).set_after t).set_private p
        | none => ((GetChannelMessagesRequest.new req.client
            req.channel).set_before last.created_at).set_after t) ?_ ?_ ?_ ?_ ?_ ?_ ?_
      · rw [channelMessageStreamIter]
        simp only [hlast, hA, hparse]
      · cases req.isPrivate <;> rfl
      · cases req.isPrivate <;> rfl
      · cases req.isPrivate <;> rfl
      · rw [hA]; cases req.isPrivate <;> rfl
      · cases req.isPrivate <;> rfl
      · cases req.isPrivate <;> rfl
  · obtain ⟨tail, htail⟩ := docsStreamIter_head
      ((GetDocsRequest.new dreq.client dreq.channel).set_before dlast.created) drest
    refine ⟨(GetDocsRequest.new dreq.client dreq.channel).set_before dlast.created,
      ?_, rfl, rfl, rfl, rfl⟩
    rw [docsStreamIter]
    simp only [hdlast]
    rw [List.getElem?_cons_succ, htail, List.getElem?_cons_zero]

/-- Witness for C9: a concrete request with `after`, `limit` and `private`
all set; the follow-up replays `after`/`private`, drops `limit`. -/
theorem C9_witness :
    (∃ next, (channelMessageStreamIter
        ⟨⟨0⟩, ChannelId.new 7, none, some (rfc3339Millis 5000), some 10, some true⟩
        [[sampleMessage 1 1000, sampleMessage 2 2000]]).requests[1]? = some next ∧
      next.client = (⟨0⟩ : Client) ∧ next.channel = ChannelId.new 7 ∧
      next.before = some (rfc3339Millis (sampleMessage 2 2000).created_at) ∧
      next.after = some (rfc3339Millis 5000) ∧ next.isPrivate = some true ∧
      next.limit = none) ∧
    (∃ dnext, (docsStreamIter ⟨⟨0⟩, ChannelId.new 9, none, some 10⟩
        [[sampleDoc 1 1000, sampleDoc 2 2000]]).requests[1]? = some dnext ∧
      dnext.client = (⟨0⟩ : Client) ∧ dnext.channel = ChannelId.new 9 ∧
      dnext.before = some (rfc3339Millis (sampleDoc 2 2000).created) ∧
      dnext.limit = none) :=
  C9_followup_request_replays_after_private_and_drops_limit
    ⟨⟨0⟩, ChannelId.new 7, none, some (rfc3339Millis 5000), some 10, some true⟩
    [sampleMessage 1 1000, sampleMessage 2 2000] [] (sampleMessage 2 2000)
    ⟨⟨0⟩, ChannelId.new 9, none, some 10⟩
    [sampleDoc 1 1000, sampleDoc 2 2000] [] (sampleDoc 2 2000)
    (Or.inr ⟨5000, rfl, by decide⟩) (by decide) (by decide)

theorem exists_append_amp (x y : String) (h : ∃ t, y = t ++ "&") :
    ∃ t, x ++ y = t ++ "&" := by
  obtain ⟨t, rfl⟩ := h
  exact ⟨x ++ t, (String.append_assoc x t "&").symm⟩

/-- **C10**: for a single-page fetch, the URL query is `None` when no
optional parameter is set; otherwise it is exactly the concatenation of one
`name=value&` segment per set parameter, in the fixed order
`before`, `after`, `limit`, `private` (`before`, `limit` for docs) — so any
present query string ends in a trailing `&`. -/
theorem C10_query_string_is_ordered_segments_with_trailing_amp
    (r : GetChannelMessagesRequest) (d : GetDocsRequest) :
    (r.queryString =
      if r.before = none ∧ r.after = none ∧ r.limit = none ∧ r.isPrivate = none
      then none
      else some (optSegment "before=" r.before ++ optSegment "after=" r.after ++
        optSegment "limit=" (r.limit.map u32Display) ++
        optSegment "private=" (r.isPrivate.map boolDisplay))) ∧
    (∀ s, r.queryString = some s → ∃ t, s = t ++ "&") ∧
    (d.queryString =
      if d.before = none ∧ d.limit = none then none
      else some (optSegment "before=" d.before ++
        optSegment "limit=" (d.limit.map u32Display))) ∧
    (∀ s, d.queryString = some s → ∃ t, s = t ++ "&") := by
  obtain ⟨rc, rch, rb, ra, rl, rp⟩ := r
  obtain ⟨dc, dch, db, dl⟩ := d
  refine ⟨?_, ?_, ?_, ?_⟩
  · rcases rb with _ | b <;> rcases ra with _ | a <;> rcases rl with _ | l <;>
      rcases rp with _ | p <;>
      simp [GetChannelMessagesRequest.queryString, optSegment,
        String.append_assoc, String.append_empty, String.empty_append,
        -String.reduceAppend]
  · rcases rb with _ | b <;> rcases ra with _ | a <;> rcases rl with _ | l <;>
      rcases rp with _ | p <;> intro s hs <;>
      simp only [GetChannelMessagesRequest.queryString, Option.getD_some,
        Option.getD_none, Option.some.injEq] at hs
    case none.none.none.none => exact absurd hs (by simp)
    all_goals subst hs
    all_goals exact ⟨_, rfl⟩
  · rcases db with _ | b <;> rcases dl with _ | l <;>
      simp [GetDocsRequest.queryString, optSegment, String.append_assoc,
        String.append_empty, String.empty_append, -String.reduceAppend]
  · rcases db with _ | b <;> rcases dl with _ | l <;> intro s hs <;>
      simp only [GetDocsRequest.queryString, Option.getD_some, Option.getD_none,
        Option.some.injEq] at hs
    case none.none => exact absurd hs (by simp)
    all_goals subst hs
    all_goals exact ⟨_, rfl⟩

/-- Witness for C10: concrete requests with parameters set produce a query
ending in `&`. -/
theorem C10_witness :
    (∃ s t, (⟨⟨0⟩, ChannelId.new 7, some "B", none, some 25, some true⟩ :
        GetChannelMessagesRequest).queryString = some s ∧ s = t ++ "&") ∧
    (∃ s t, (⟨⟨0⟩, ChannelId.new 9, some "B", some 25⟩ :
        GetDocsRequest).queryString = some s ∧ s = t ++ "&") := by
  obtain ⟨-, h2, -, h4⟩ := C10_query_string_is_ordered_segments_with_trailing_amp
    ⟨⟨0⟩, ChannelId.new 7, some "B", none, some 25, some true⟩
    ⟨⟨0⟩, ChannelId.new 9, some "B", some 25⟩
  have hm : ((⟨⟨0⟩, ChannelId.new 7, some "B", none, some 25, some true⟩ :
      GetChannelMessagesRequest).queryString).isSome := by decide
  have hdq : ((⟨⟨0⟩, ChannelId.new 9, some "B", some 25⟩ :
      GetDocsRequest).queryString).isSome := by decide
  obtain ⟨s, hsome⟩ := Option.isSome_iff_exists.mp hm
  obtain ⟨ds, hdsome⟩ := Option.isSome_iff_exists.mp hdq
  obtain ⟨t, ht⟩ := h2 s hsome
  obtain ⟨dt, hdt⟩ := h4 ds hdsome
  exact ⟨⟨s, t, hsome, ht⟩, ⟨ds, dt, hdsome, hdt⟩⟩

/-- **C8**: setting the `reason` on the ban-creation builder makes the
serialized body carry a `"reason"` key with that string; never setting it
makes the body an object with no `reason` key at all (omitted, not `null`). -/
theorem C8_ban_reason_serialized_only_when_set (c : Client) (sv : ServerId)
    (u : UserId) (reason : String) :
    ((ServerBanRequest.new c sv u).set_reason reason).body =
      Json.obj [("reason", Json.str reason)] ∧
    (ServerBanRequest.new c sv u).body = Json.obj [] ∧
    (∀ fields, (ServerBanRequest.new c sv u).body = Json.obj fields →
      jsonLookup fields "reason" = none) := by
  refine ⟨rfl, rfl, ?_⟩
  intro fields h
  have h2 : Json.obj [] = Json.obj fields := h
  injection h2 with h3
  subst h3
  rfl

/-- Witness for C8 at a concrete builder and reason. -/
theorem C8_witness :
    ((ServerBanRequest.new ⟨0⟩ (ServerId.new "s") (UserId.new "u")).set_reason
      "spam").body = Json.obj [("reason", Json.str "spam")] ∧
    (ServerBanRequest.new ⟨0⟩ (ServerId.new "s") (UserId.new "u")).body =
      Json.obj [] ∧
    (∀ fields, (ServerBanRequest.new ⟨0⟩ (ServerId.new "s")
        (UserId.new "u")).body = Json.obj fields →
      jsonLookup fields "reason" = none) :=
  C8_ban_reason_serialized_only_when_set ⟨0⟩ (ServerId.new "s")
    (UserId.new "u") "spam"

/-- **C7**: for every identifier kind, identifiers built from equal
primitives are equal and from unequal primitives unequal; and for the UUID-
and `u32`-backed kinds, comparing against text that fails to parse as the
underlying primitive yields `false` (the comparison is total, never an
error). -/
theorem C7_identifier_equality_and_malformed_text_compares_false
    (a b : Nat) (sa sb su sn : String)
    (hu : uuidFromStr su = none) (hn : u32FromStr sn = none) :
    ((MessageId.new a = MessageId.new b) ↔ a = b) ∧
    ((ChannelId.new a = ChannelId.new b) ↔ a = b) ∧
    ((ListId.new a = ListId.new b) ↔ a = b) ∧
    ((DocId.new a = DocId.new b) ↔ a = b) ∧
    ((RoleId.new a = RoleId.new b) ↔ a = b) ∧
    ((CategoryId.new a = CategoryId.new b) ↔ a = b) ∧
    ((ForumId.new a = ForumId.new b) ↔ a = b) ∧
    ((EmoteId.new a = EmoteId.new b) ↔ a = b) ∧
    ((UserId.new sa = UserId.new sb) ↔ sa = sb) ∧
    ((ServerId.new sa = ServerId.new sb) ↔ sa = sb) ∧
    ((GroupId.new sa = GroupId.new sb) ↔ sa = sb) ∧
    ((WebhookId.new sa = WebhookId.new sb) ↔ sa = sb) ∧
    (MessageId.new a).eq_str su = false ∧
    (ChannelId.new a).eq_str su = false ∧
    (ListId.new a).eq_str su = false ∧
    (DocId.new a).eq_str sn = false ∧
    (RoleId.new a).eq_str sn = false ∧
    (CategoryId.new a).eq_str sn = false ∧
    (ForumId.new a).eq_str sn = false ∧
    (EmoteId.new a).eq_str sn = false := by
  refine ⟨?_, ?_, ?_, ?_, ?_, ?_, ?_, ?_, ?_, ?_, ?_, ?_, ?_, ?_, ?_, ?_, ?_,
    ?_, ?_, ?_⟩ <;>
    simp [MessageId.new, ChannelId.new, ListId.new, DocId.new, RoleId.new,
      CategoryId.new, ForumId.new, EmoteId.new, UserId.new, ServerId.new,
      GroupId.new, WebhookId.new, MessageId.eq_str, ChannelId.eq_str,
      ListId.eq_str, DocId.eq_str, RoleId.eq_str, CategoryId.eq_str,
      ForumId.eq_str, EmoteId.eq_str, hu, hn]

/-- Witness for C7 at concrete primitives and malformed text. -/
theorem C7_witness :
    uuidFromStr "not-a-uuid" = none ∧ u32FromStr "99xx" = none ∧
    (((MessageId.new 1 = MessageId.new 2) ↔ (1 : Nat) = 2) ∧
      (MessageId.new 1).eq_str "not-a-uuid" = false ∧
      (DocId.new 1).eq_str "99xx" = false) := by
  have h := C7_identifier_equality_and_malformed_text_compares_false 1 2
    "x" "y" "not-a-uuid" "99xx" (by decide) (by decide)
  exact ⟨by decide, by decide, h.1, h.2.2.2.2.2.2.2.2.2.2.2.2.1,
    h.2.2.2.2.2.2.2.2.2.2.2.2.2.2.2.1⟩

/-- **C6**: formatting an identifier and parsing the text back succeeds and
returns the same identifier (hence reformatting yields the identical text)
for the UUID-backed and `u32`-backed kinds; the string-backed kinds parse
any string successfully and round-trip byte-for-byte. -/
theorem C6_identifier_text_roundtrip (u n : Nat) (s : String)
    (hu : u < 2 ^ 128) (hn : n < 2 ^ 32) :
    (MessageId.from_str (MessageId.new u).display = some (MessageId.new u) ∧
      (MessageId.from_str (MessageId.new u).display).map MessageId.display =
        some (MessageId.new u).display) ∧
    (ChannelId.from_str (ChannelId.new u).display = some (ChannelId.new u) ∧
      (ChannelId.from_str (ChannelId.new u).display).map ChannelId.display =
        some (ChannelId.new u).display) ∧
    (ListId.from_str (ListId.new u).display = some (ListId.new u) ∧
      (ListId.from_str (ListId.new u).display).map ListId.display =
        some (ListId.new u).display) ∧
    (DocId.from_str (DocId.new n).display = some (DocId.new n) ∧
      (DocId.from_str (DocId.new n).display).map DocId.display =
        some (DocId.new n).display) ∧
    (RoleId.from_str (RoleId.new n).display = some (RoleId.new n) ∧
      (RoleId.from_str (RoleId.new n).display).map RoleId.display =
        some (RoleId.new n).display) ∧
    (CategoryId.from_str (CategoryId.new n).display = some (CategoryId.new n) ∧
      (CategoryId.from_str (CategoryId.new n).display).map CategoryId.display =
        some (CategoryId.new n).display) ∧
    (ForumId.from_str (ForumId.new n).display = some (ForumId.new n) ∧
      (ForumId.from_str (ForumId.new n).display).map ForumId.display =
        some (ForumId.new n).display) ∧
    (EmoteId.from_str (EmoteId.new n).display = some (EmoteId.new n) ∧
      (EmoteId.from_str (EmoteId.new n).display).map EmoteId.display =
        some (EmoteId.new n).display) ∧
    (UserId.from_str s = some (UserId.new s) ∧ (UserId.new s).display = s) ∧
    (ServerId.from_str s = some (ServerId.new s) ∧ (ServerId.new s).display = s) ∧
    (GroupId.from_str s = some (GroupId.new s) ∧ (GroupId.new s).display = s) ∧
    (WebhookId.from_str s = some (WebhookId.new s) ∧
      (WebhookId.new s).display = s) := by
  have huu := uuidFromStr_uuidDisplay hu
  have hnn := u32FromStr_u32Display hn
  have hmsg : MessageId.from_str (MessageId.new u).display =
      some (MessageId.new u) := by
    simp [MessageId.from_str, MessageId.display, MessageId.new, huu]
  have hch : ChannelId.from_str (ChannelId.new u).display =
      some (ChannelId.new u) := by
    simp [ChannelId.from_str, ChannelId.display, ChannelId.new, huu]
  have hli : ListId.from_str (ListId.new u).display = some (ListId.new u) := by
    simp [ListId.from_str, ListId.display, ListId.new, huu]
  have hdoc : DocId.from_str (DocId.new n).display = some (DocId.new n) := by
    simp [DocId.from_str, DocId.display, DocId.new, hnn]
  have hrole : RoleId.from_str (RoleId.new n).display = some (RoleId.new n) := by
    simp [RoleId.from_str, RoleId.display, RoleId.new, hnn]
  have hcat : CategoryId.from_str (CategoryId.new n).display =
      some (CategoryId.new n) := by
    simp [CategoryId.from_str, CategoryId.display, CategoryId.new, hnn]
  have hfor : ForumId.from_str (ForumId.new n).display = some (ForumId.new n) := by
    simp [ForumId.from_str, ForumId.display, ForumId.new, hnn]
  have hemo : EmoteId.from_str (EmoteId.new n).display = some (EmoteId.new n) := by
    simp [EmoteId.from_str, EmoteId.display, EmoteId.new, hnn]
  exact ⟨⟨hmsg, by rw [hmsg]; rfl⟩, ⟨hch, by rw [hch]; rfl⟩,
    ⟨hli, by rw [hli]; rfl⟩, ⟨hdoc, by rw [hdoc]; rfl⟩,
    ⟨hrole, by rw [hrole]; rfl⟩, ⟨hcat, by rw [hcat]; rfl⟩,
    ⟨hfor, by rw [hfor]; rfl⟩, ⟨hemo, by rw [hemo]; rfl⟩,
    ⟨rfl, rfl⟩, ⟨rfl, rfl⟩, ⟨rfl, rfl⟩, ⟨rfl, rfl⟩⟩

/-- Witness for C6 at a concrete UUID value, `u32` value and string. -/
theorem C6_witness :
    (MessageId.from_str (MessageId.new 0x123e4567e89b12d3a456426614174000).display =
      some (MessageId.new 0x123e4567e89b12d3a456426614174000)) ∧
    (DocId.from_str (DocId.new 4294967295).display = some (DocId.new 4294967295)) ∧
    (UserId.from_str "abc" = some (UserId.new "abc") ∧
      (UserId.new "abc").display = "abc") := by
  have h := C6_identifier_text_roundtrip 0x123e4567e89b12d3a456426614174000
    4294967295 "abc" (by decide) (by decide)
  exact ⟨h.1.1, h.2.2.2.1.1, h.2.2.2.2.2.2.2.2.1⟩

/-- Counterexample to **C5** as stated: the facade method `get_channels` does
not return a builder — its body is `unimplemented!()`, which aborts; the
embedding returns `none` for an aborting method and `some builder` for a
normally-returning one. -/
theorem C5_counterexample_get_channels_aborts :
    (GuildedClient.mk ⟨0⟩).get_channels = none := rfl

/-- **C5 (amended)**: every facade method except `get_channels` is a pure
constructor — for every argument it returns (normally) exactly the
corresponding request builder, performing no I/O; `get_channels` aborts
(`unimplemented!()`). -/
theorem C5_facade_methods_are_pure_constructors (g : GuildedClient)
    (server name content title nickname message : String)
    (ct : ChannelType) (ch : ChannelId) (m : MessageId) (sv : ServerId)
    (u : UserId) (li : ListId) (dc : DocId) (cid : ContentId) (e : EmoteId)
    (ro : RoleId) (gr : GroupId) (amount : Int) :
    g.create_channel server name ct =
      some (CreateChannelRequest.new g.client server name ct) ∧
    g.get_channel ch = some (GetChannelRequest.new g.client ch) ∧
    g.delete_channel ch = some (DeleteChannelRequest.new g.client ch) ∧
    g.get_channels = none ∧
    g.send_message ch content =
      some (CreateMessageRequest.new g.client ch content) ∧
    g.get_messages ch = some (GetChannelMessagesRequest.new g.client ch) ∧
    g.get_message ch m = some (GetMessageRequest.new g.client ch m) ∧
    g.update_message ch m content =
      some (UpdateMessageRequest.new g.client ch m content) ∧
    g.delete_message ch m = some (DeleteMessageRequest.new g.client ch m) ∧
    g.update_nickname sv u nickname =
      some (UpdateNicknameRequest.new g.client sv u nickname) ∧
    g.delete_nickname sv u = some (DeleteNicknameRequest.new g.client sv u) ∧
    g.get_member sv u = some (GetMemberRequest.new g.client sv u) ∧
    g.kick_member sv u = some (KickMemberRequest.new g.client sv u) ∧
    g.get_members sv = some (GetMembersRequest.new g.client sv) ∧
    g.ban_user sv u = some (ServerBanRequest.new g.client sv u) ∧
    g.get_ban sv u = some (GetServerBanRequest.new g.client sv u) ∧
    g.delete_ban sv u = some (DeleteServerBanRequest.new g.client sv u) ∧
    g.get_bans sv = some (GetServerBansRequest.new g.client sv) ∧
    g.create_thread ch title content =
      some (CreateThreadRequest.new g.client ch title content) ∧
    g.create_list_item ch message =
      some (CreateListItemRequest.new g.client ch message) ∧
    g.get_list_items ch = some (GetListItemsRequest.new g.client ch) ∧
    g.get_list_item ch li = some (GetListItemRequest.new g.client ch li) ∧
    g.update_list_item ch li message =
      some (UpdateListItemRequest.new g.client ch li message) ∧
    g.delete_list_item ch li = some (DeleteListItemRequest.new g.client ch li) ∧
    g.complete_list_item ch li =
      some (CompleteListItemRequest.new g.client ch li) ∧
    g.uncomplete_list_item ch li =
      some (UncompleteListItemRequest.new g.client ch li) ∧
    g.create_doc ch title content =
      some (CreateDocRequest.new g.client ch title content) ∧
    g.get_docs ch = some (GetDocsRequest.new g.client ch) ∧
    g.get_doc ch dc = some (GetDocRequest.new g.client ch dc) ∧
    g.update_doc ch dc title content =
      some (UpdateDocRequest.new g.client ch dc title content) ∧
    g.delete_doc ch dc = some (DeleteDocRequest.new g.client ch dc) ∧
    g.add_reaction ch cid e = some (AddReactionRequest.new g.client ch cid e) ∧
    g.award_member sv u amount =
      some (MemberXpRequest.new g.client sv u amount) ∧
    g.award_role sv ro amount = some (RoleXpRequest.new g.client sv ro amount) ∧
    g.add_group_member gr u = some (AddGroupMemberRequest.new g.client gr u) ∧
    g.delete_group_member gr u =
      some (DeleteGroupMemberRequest.new g.client gr u) ∧
    g.get_member_roles sv u = some (GetMemberRolesRequest.new g.client sv u) :=
  ⟨rfl, rfl, rfl, rfl, rfl, rfl, rfl, rfl, rfl, rfl, rfl, rfl, rfl, rfl, rfl,
    rfl, rfl, rfl, rfl, rfl, rfl, rfl, rfl, rfl, rfl, rfl, rfl, rfl, rfl, rfl,
    rfl, rfl, rfl, rfl, rfl, rfl, rfl⟩

/-- **C4**: evaluation at the failing input.  The GET-ban envelope
`GetServerBanResponse` has no `deny_unknown_fields` attribute, so a response
object with an undeclared extra field (`"unexpected"`) still decodes
successfully — contradicting the strict-schema invariant.  For contrast, the
strict POST envelope and the strict record reject the same extra field. -/
theorem C4_get_ban_envelope_accepts_unknown_field :
    decodeGetServerBanResponse (Json.obj
      [("serverMemberBan", Json.obj
        [("user", Json.obj [("id", Json.str "u1"), ("name", Json.str "Alice"),
          ("avatar", Json.null)]),
         ("reason", Json.null),
         ("createdBy", Json.str "u2"),
         ("createdAt", Json.str "2024-01-01T00:00:00.000Z")]),
       ("unexpected", Json.num 0)]) =
      some ⟨⟨⟨UserId.new "u1", UserType.user, "Alice", none⟩, none,
        UserId.new "u2", 1704067200000⟩⟩ ∧
    decodeServerBanResponse (Json.obj
      [("serverMemberBan", Json.obj
        [("user", Json.obj [("id", Json.str "u1"), ("name", Json.str "Alice"),
          ("avatar", Json.null)]),
         ("reason", Json.null),
         ("createdBy", Json.str "u2"),
         ("createdAt", Json.str "2024-01-01T00:00:00.000Z")]),
       ("unexpected", Json.num 0)]) = none ∧
    decodeServerMemberBan (Json.obj
      [("user", Json.obj [("id", Json.str "u1"), ("name", Json.str "Alice"),
        ("avatar", Json.null)]),
       ("reason", Json.null),
       ("createdBy", Json.str "u2"),
       ("createdAt", Json.str "2024-01-01T00:00:00.000Z"),
       ("unexpected", Json.num 0)]) = none := by
  refine ⟨?_, ?_, ?_⟩ <;> decide

/-- **C3**: evaluation at the failing input.  `DeleteDocRequest::send` and
`RemoveRoleRequest::send` never call `error_for_status`, so an HTTP 404
response still yields `Ok(())` — contradicting the claim that every builder
turns a non-2xx status into a transport/status error.  The sibling senders
that do call `error_for_status` fail as the claim demands. -/
theorem C3_delete_doc_and_remove_role_ignore_http_status :
    (DeleteDocRequest.new ⟨0⟩ (ChannelId.new 1) (DocId.new 2)).send
      ⟨404, Json.null⟩ = Except.ok () ∧
    (RemoveRoleRequest.new ⟨0⟩ (ServerId.new "s") (UserId.new "u")
      (RoleId.new 3)).send ⟨404, Json.null⟩ = Except.ok () ∧
    (DeleteServerBanRequest.new ⟨0⟩ (ServerId.new "s") (UserId.new "u")).send
      ⟨404, Json.null⟩ = Except.error (Error.status 404) ∧
    (ServerBanRequest.new ⟨0⟩ (ServerId.new "s") (UserId.new "u")).send
      ⟨404, Json.null⟩ = Except.error (Error.status 404) ∧
    (AssignRoleRequest.new ⟨0⟩ (ServerId.new "s") (UserId.new "u")
      (RoleId.new 3)).send ⟨404, Json.null⟩ = Except.error (Error.status 404) ∧
    (GetServerBanRequest.new ⟨0⟩ (ServerId.new "s") (UserId.new "u")).send
      ⟨404, Json.null⟩ = Except.error (Error.status 404) := by
  refine ⟨rfl, rfl, ?_, ?_, ?_, ?_⟩ <;> rfl

end Guilded
